import Mathlib

set_option autoImplicit false

/-!
Verification development for the kriptty-mcp tool server.

The development shallowly embeds the request gateway, the API client
request builders and every tool handler of the repository.  Handlers are
modelled as pure functions from their (schema-validated) parameters and
the outcome of their single gateway call to the list of issued requests
paired with either the returned display text or a propagated
non-structured error.  JavaScript primitives used by the code
(decimal rendering of numbers, parseFloat, Number.toFixed, object
property enumeration order, truthiness) are modelled explicitly below.
-/

/-! ## JavaScript primitive models -/

/-- Decimal digit value accumulator over a list of digit characters. -/
def digitsVal (l : List Char) : Nat :=
  l.foldl (fun a c => a * 10 + (c.toNat - 48)) 0

/-- Fuel-bounded digit expansion of a natural number, least significant
digit last. -/
def natDecAux : Nat → Nat → List Char
  | 0, _ => []
  | fuel + 1, n =>
    if n < 10 then [Nat.digitChar n]
    else natDecAux fuel (n / 10) ++ [Nat.digitChar (n % 10)]

/-- Decimal representation of a natural number as a list of characters,
modelling the JavaScript rendering of a nonnegative integer. -/
def natDecChars (n : Nat) : List Char := natDecAux (n + 1) n

/-- Decimal string of a natural number (JavaScript number rendering). -/
def natDec (n : Nat) : String := String.mk (natDecChars n)

/-- Decimal string of an integer (JavaScript number rendering). -/
def intDec (i : Int) : String :=
  if i < 0 then "-" ++ natDec i.natAbs else natDec i.natAbs

theorem digitsVal_append_one (l : List Char) (c : Char) :
    digitsVal (l ++ [c]) = digitsVal l * 10 + (c.toNat - 48) := by
  simp [digitsVal, List.foldl_append]

theorem digitChar_toNat_sub (d : Nat) (h : d < 10) :
    (Nat.digitChar d).toNat - 48 = d := by
  interval_cases d <;> rfl

theorem digitChar_isDigit (d : Nat) (h : d < 10) :
    (Nat.digitChar d).isDigit = true := by
  interval_cases d <;> rfl

theorem digitsVal_natDecAux (fuel : Nat) :
    ∀ n, n < fuel → digitsVal (natDecAux fuel n) = n := by
  induction fuel with
  | zero => intro n h; omega
  | succ f ih =>
    intro n h
    rw [natDecAux]
    split
    · next hlt =>
      simp [digitsVal, digitChar_toNat_sub n hlt]
    · next hge =>
      have hdiv : n / 10 < n := Nat.div_lt_self (by omega) (by omega)
      rw [digitsVal_append_one, ih (n / 10) (by omega),
        digitChar_toNat_sub _ (Nat.mod_lt _ (by omega))]
      omega

theorem digitsVal_natDecChars (n : Nat) : digitsVal (natDecChars n) = n :=
  digitsVal_natDecAux (n + 1) n (Nat.lt_succ_self n)

theorem natDecChars_ne_nil (n : Nat) : natDecChars n ≠ [] := by
  rw [natDecChars, natDecAux]
  split <;> simp

theorem natDecAux_all_digits (fuel : Nat) :
    ∀ n, (natDecAux fuel n).all Char.isDigit = true := by
  induction fuel with
  | zero => intro n; rfl
  | succ f ih =>
    intro n
    rw [natDecAux]
    split
    · next h => simp [digitChar_isDigit n h]
    · next h =>
      simp only [List.all_append, List.all_cons, List.all_nil, Bool.and_true,
        Bool.and_eq_true]
      exact ⟨ih (n / 10), digitChar_isDigit _ (Nat.mod_lt _ (by omega))⟩

theorem natDecChars_all_digits (n : Nat) :
    (natDecChars n).all Char.isDigit = true :=
  natDecAux_all_digits (n + 1) n

/-- Interpret a string of decimal digits as a natural number; fails when the
string is empty or holds a non-digit. -/
def decStrToNat? (s : String) : Option Nat :=
  if s.data ≠ [] ∧ s.data.all Char.isDigit then some (digitsVal s.data)
  else none

/-- JavaScript canonical array-index test for property keys: the string is
the canonical decimal form of an integer below 2^32 - 1.  Such keys are
enumerated first, in ascending numeric order, by Object.entries. -/
def isArrayIndex (s : String) : Bool :=
  match decStrToNat? s with
  | some n => decide (n < 4294967295) && (natDec n == s)
  | none => false

/-- Numeric value of an array-index-like key, used for enumeration order. -/
def keyNum (s : String) : Nat := (decStrToNat? s).getD 0

theorem decStrToNat?_natDec (n : Nat) : decStrToNat? (natDec n) = some n := by
  have hne : natDecChars n ≠ [] := natDecChars_ne_nil n
  have hall : (natDecChars n).all Char.isDigit = true := natDecChars_all_digits n
  simp only [decStrToNat?, natDec]
  rw [if_pos ⟨hne, hall⟩]
  exact congrArg some (digitsVal_natDecChars n)

theorem isArrayIndex_natDec (y : Nat) (h : y < 4294967295) :
    isArrayIndex (natDec y) = true := by
  simp [isArrayIndex, decStrToNat?_natDec, h]

theorem keyNum_natDec (y : Nat) : keyNum (natDec y) = y := by
  simp [keyNum, decStrToNat?_natDec]

/-- Model of the JavaScript parseFloat builtin restricted to ordinary
decimal literals: optional leading spaces, optional sign, integer digits,
optional fractional digits.  Returns none where parseFloat yields NaN.
Exponent notation is outside the fragment the backend emits and is not
modelled. -/
def parseDec (s : String) : Option ℚ :=
  let l := s.data.dropWhile (fun c => c = ' ' ∨ c = '\t' ∨ c = '\n' ∨ c = '\r')
  let neg : Bool := match l with | '-' :: _ => true | _ => false
  let l₁ := match l with | '-' :: t => t | '+' :: t => t | t => t
  let ds := l₁.takeWhile Char.isDigit
  let rest := l₁.dropWhile Char.isDigit
  let fs := match rest with
    | '.' :: t => t.takeWhile Char.isDigit
    | _ => []
  if ds = [] ∧ fs = [] then none
  else
    let scale := Nat.pow 10 fs.length
    let mag : ℚ := mkRat (digitsVal ds * scale + digitsVal fs) scale
    some (if neg then Rat.neg mag else mag)

/-- Exactly four decimal digits of a natural number below 10000,
zero padded on the left. -/
def fixedFrac4 (m : Nat) : String :=
  String.mk [Nat.digitChar (m / 1000 % 10), Nat.digitChar (m / 100 % 10),
    Nat.digitChar (m / 10 % 10), Nat.digitChar (m % 10)]

/-- Model of Number.toFixed 4 on a nonnegative rational: round to the
nearest multiple of 1/10000, ties towards the larger value, then print
with exactly four fractional digits. -/
def toFixed4Pos (q : ℚ) : String :=
  let m := (Int.fdiv (2 * q.num * 10000 + q.den) (2 * q.den)).toNat
  natDec (m / 10000) ++ "." ++ fixedFrac4 (m % 10000)

/-- Model of Number.toFixed 4: negative arguments print a leading minus
sign before the rendering of their absolute value.  The sign test is on
the numerator, which decides the sign of the value. -/
def toFixed4 (q : ℚ) : String :=
  if q.num < 0 then "-" ++ toFixed4Pos (Rat.neg q) else toFixed4Pos q

/-- The pnl rendering expression repeated across the tool files:
a plus sign is prefixed exactly when the value is nonnegative. -/
def jsSignedPnlQ (q : ℚ) : String :=
  if 0 ≤ q.num then "+" ++ toFixed4 q else toFixed4 q

/-- Signed pnl rendering lifted to a possibly-NaN float: NaN compares
false against zero and Number.toFixed renders it as the string NaN. -/
def jsSignedPnl : Option ℚ → String
  | none => "NaN"
  | some q => jsSignedPnlQ q

/-- JavaScript float addition with NaN propagation.  The sum is built
through mkRat, which normalizes to the same canonical rational as the
field addition. -/
def jsAdd : Option ℚ → Option ℚ → Option ℚ
  | some a, some b => some (mkRat (a.num * b.den + b.num * a.den) (a.den * b.den))
  | _, _ => none

/-- Rendering x || d where x is a nullable string: null and the empty
string are falsy. -/
def jsOrStr (o : Option String) (d : String) : String :=
  match o with
  | none => d
  | some s => if s = "" then d else s

/-- Direct template interpolation of a nullable string: null renders as
the string null. -/
def jsStrOrNull (o : Option String) : String :=
  match o with
  | none => "null"
  | some s => s

/-- Rendering x || d where x is a nullable integer: null and zero are
falsy. -/
def jsOrInt (o : Option Int) (d : String) : String :=
  match o with
  | none => d
  | some i => if i = 0 then d else intDec i

/-- Direct template interpolation of a nullable integer. -/
def jsIntOrNull (o : Option Int) : String :=
  match o with
  | none => "null"
  | some i => intDec i

/-- Fractional decimal digits of the fraction given by a remainder over
a denominator, produced most significant first, by integer long
division with a fuel bound. -/
def fracDigitsAux : Nat → Nat → Nat → List Char
  | 0, _, _ => []
  | fuel + 1, r, den =>
    if r = 0 then []
    else Nat.digitChar (r * 10 / den) :: fracDigitsAux fuel (r * 10 % den) den

/-- Model of the JavaScript default Number to String rendering for values
with a terminating decimal expansion, which covers every numeric field
the backend serves. -/
def jsNumRepr (q : ℚ) : String :=
  let sign := if q.num < 0 then "-" else ""
  let n := q.num.natAbs / q.den
  let r := q.num.natAbs % q.den
  sign ++ natDec n ++
    (if r = 0 then "" else "." ++ String.mk (fracDigitsAux 20 r q.den))

/-- Rendering x || d where x is a nullable float. -/
def jsOrQ (o : Option ℚ) (d : String) : String :=
  match o with
  | none => d
  | some q => if q.num = 0 then d else jsNumRepr q

/-- Truthiness of a nullable string. -/
def jsTruthyStr (o : Option String) : Bool :=
  match o with
  | none => false
  | some s => s ≠ ""

/-- Truthiness of a nullable natural number. -/
def jsTruthyNat (o : Option Nat) : Bool :=
  match o with
  | none => false
  | some n => n ≠ 0

/-- Template interpolation of an optional natural number field, rendering
the string undefined when the field is absent. -/
def jsNatOrUndefined (o : Option Nat) : String :=
  match o with
  | none => "undefined"
  | some n => natDec n

namespace Kriptty

/-! ## JSON bodies, requests and the gateway -/

/-- Primitive JSON values appearing in request bodies. -/
inductive JPrim where
  | str (s : String)
  | num (q : ℚ)
  | bool (b : Bool)
  | null
deriving DecidableEq, Repr

/-- A JSON body value: a primitive or a one-level nested object, which is
as deep as any request body of this program goes. -/
inductive JVal where
  | prim (p : JPrim)
  | obj (fields : List (String × JPrim))
deriving DecidableEq, Repr

/-- A serialized JSON object body as an ordered field list; the order is
the property insertion order of the object literal, which is what
JSON.stringify emits for the non-numeric keys used here.  Fields whose
value is the JavaScript undefined are never inserted, mirroring
JSON.stringify dropping them. -/
abbrev JBody := List (String × JVal)

/-- One HTTP request issued by the client gateway. -/
structure ApiRequest where
  endpoint : String
  method : String
  body : Option JBody
deriving DecidableEq, Repr

/-- Structured error raised by the gateway for a non-2xx response. -/
structure ApiError where
  status : Nat
  statusText : String
  message : String
deriving DecidableEq, Repr

/-- Constructor of the ApiError class: a missing or empty message falls
back to a default embedding the status and reason phrase. -/
def ApiError.make (status : Nat) (statusText : String)
    (message : Option String) : ApiError :=
  ⟨status, statusText,
    jsOrStr message ("API Error: " ++ natDec status ++ " " ++ statusText)⟩

/-- Errors a gateway call can produce: the structured HTTP error, or a
transport-level failure (network failure, malformed response JSON,
configuration failure) that handlers never catch. -/
inductive ReqError where
  | api (e : ApiError)
  | transport (msg : String)
deriving DecidableEq, Repr

/-- Outcome of a single gateway call with expected payload type. -/
abbrev CallResult (α : Type) := Except ReqError α

/-- Shorthand for the failed outcome carrying a structured HTTP error. -/
def apiFail {α : Type} (e : ApiError) : CallResult α :=
  Except.error (ReqError.api e)

/-- Shorthand for a propagating transport failure. -/
def transportFail {α : Type} (m : String) : CallResult α :=
  Except.error (ReqError.transport m)

/-- The raw HTTP response the fetch call produced, with the body both as
text (read on failure) and as the decoded JSON payload (none models a
body on which the JSON decode would fail). -/
structure HttpResponse (α : Type) where
  status : Nat
  statusText : String
  bodyText : String
  jsonBody : Option α

/-- The response ok flag of the fetch API: status within 200 to 299. -/
def HttpResponse.ok {α : Type} (r : HttpResponse α) : Bool :=
  decide (200 ≤ r.status) && decide (r.status ≤ 299)

/-- The private request method of KripttyApiClient: on an ok response the
JSON body is returned (a decode failure propagates as a transport-level
error); otherwise the body text is read and an ApiError is raised whose
message embeds the status, the reason phrase and the raw body text. -/
def gatewayRequest {α : Type} (r : HttpResponse α) : CallResult α :=
  if r.ok then
    match r.jsonBody with
    | some v => Except.ok v
    | none => transportFail "Unexpected end of JSON input"
  else
    Except.error (ReqError.api (ApiError.make r.status r.statusText
      (some ("API request failed: " ++ natDec r.status ++ " " ++
        r.statusText ++ ". " ++ r.bodyText))))

/-! ## Object property grouping and enumeration order -/

/-- Append a record to the entry of its key inside an accumulated group
list, creating a fresh trailing entry for a previously unseen key.  This
is the effect of the grouping loop body on the record object. -/
def insertGroup {α : Type} (l : List (String × List α)) (k : String)
    (r : α) : List (String × List α) :=
  match l with
  | [] => [(k, [r])]
  | (k₀, rs) :: t =>
    if k₀ = k then (k₀, rs ++ [r]) :: t else (k₀, rs) :: insertGroup t k r

/-- The grouping loop: fold the records into a keyed object, keeping the
property insertion order. -/
def buildGroups {α : Type} (key : α → String) : List α →
    List (String × List α) → List (String × List α)
  | [], acc => acc
  | r :: rs, acc => buildGroups key rs (insertGroup acc (key r) r)

/-- Object.entries enumeration order on a property list: canonical
array-index keys first in ascending numeric order, then the remaining
keys in insertion order. -/
def jsEntries {α : Type} (l : List (String × α)) : List (String × α) :=
  (List.insertionSort (fun a b => keyNum a.1 ≤ keyNum b.1)
      (l.filter (fun kv => isArrayIndex kv.1)))
    ++ l.filter (fun kv => !isArrayIndex kv.1)

/-- First occurrences of a key list, in first-seen order; written from
the grouping rule of the specification. -/
def firstSeenAux : Nat → List String → List String
  | 0, _ => []
  | _, [] => []
  | fuel + 1, k :: t => k :: firstSeenAux fuel (t.filter (fun x => x ≠ k))

/-- First occurrences of a key list in first-seen order. -/
def firstSeen (l : List String) : List String := firstSeenAux l.length l

theorem firstSeenAux_congr (fuel₁ fuel₂ : Nat) :
    ∀ l : List String, l.length ≤ fuel₁ → l.length ≤ fuel₂ →
      firstSeenAux fuel₁ l = firstSeenAux fuel₂ l := by
  induction fuel₁ generalizing fuel₂ with
  | zero =>
    intro l h₁ _
    have : l = [] := List.length_eq_zero.mp (Nat.le_zero.mp h₁)
    subst this
    cases fuel₂ <;> rfl
  | succ f ih =>
    intro l h₁ h₂
    cases l with
    | nil => cases fuel₂ <;> rfl
    | cons k t =>
      cases fuel₂ with
      | zero => simp at h₂
      | succ f₂ =>
        simp only [firstSeenAux]
        have hlen : (t.filter (fun x => x ≠ k)).length ≤ f := by
          have := List.length_filter_le (fun x => x ≠ k) t
          simp at h₁; omega
        have hlen₂ : (t.filter (fun x => x ≠ k)).length ≤ f₂ := by
          have := List.length_filter_le (fun x => x ≠ k) t
          simp at h₂; omega
        rw [ih f₂ _ hlen hlen₂]

theorem firstSeen_nil : firstSeen [] = [] := rfl

theorem firstSeen_cons (k : String) (t : List String) :
    firstSeen (k :: t) = k :: firstSeen (t.filter (fun x => x ≠ k)) := by
  simp only [firstSeen, List.length_cons, firstSeenAux]
  exact congrArg _ (firstSeenAux_congr _ _ _
    (List.length_filter_le _ _) (Nat.le_refl _))

/-! ## Entity shapes decoded from responses (from the client interfaces) -/

/-- Exchange summary nested inside a user (rich client variant). -/
structure ExchangeSummary where
  id : Nat
  name : String
  exchange : String
deriving DecidableEq, Repr

/-- User entity (rich client variant, with attached exchange list). -/
structure User where
  id : Nat
  name : String
  email : String
  admin : Bool
  role : Int
  timezone : Option String
  last_seen : Option String
  created_at : String
  exchanges : List ExchangeSummary
deriving DecidableEq, Repr

/-- Routine action sub-object. -/
structure RoutineAction where
  grid_mode : String
  grid_id : Int
  lm : String
  lwe : ℚ
  sm : String
  swe : ℚ
deriving DecidableEq, Repr

/-- Routine entity. -/
structure Routine where
  id : String
  user_id : Nat
  name : String
  type : String
  action : RoutineAction
  triggered_at : Option String
  triggered_by : Option String
  created_at : String
deriving DecidableEq, Repr

/-- Grid summary. -/
structure GridSummary where
  id : Nat
  user_id : Nat
  name : String
deriving DecidableEq, Repr

/-- Detailed exchange entity. -/
structure ExchangeDetailed where
  id : Nat
  user_id : Nat
  name : String
  slug : String
  exchange : String
  risk_mode : String
  is_testnet : Bool
  api_error : Bool
  usdt_balance : Option String
  usd_balance : Option String
  btc_balance : Option String
  eth_balance : Option String
  initial_usdt_balance : Option String
  initial_balance_recorded_at : Option String
  created_at : String
  updated_at : String
deriving DecidableEq, Repr

/-- Required, optional and per-field notes sections of a parameters
payload. -/
structure FieldsInfo where
  required : List String
  optional : List String
  notes : List (String × String)
deriving DecidableEq, Repr

/-- Exchange parameters payload. -/
structure ExchangeParameters where
  exchanges : List (String × String)
  risk_modes : List (String × String)
  fields : FieldsInfo
deriving DecidableEq, Repr

/-- Routine parameters payload. -/
structure RoutineParameters where
  grid_modes : List (String × String)
  bot_modes : List (String × String)
  grids : List GridSummary
deriving DecidableEq, Repr

/-- Symbol summary from bot parameters. -/
structure SymbolSummary where
  id : Nat
  name : String
  nice_name : String
  exchange : String
deriving DecidableEq, Repr

/-- Exchange summary denormalized into a bot. -/
structure BotExchange where
  id : Nat
  name : String
  slug : String
  exchange : String
deriving DecidableEq, Repr

/-- Symbol summary denormalized into a bot. -/
structure BotSymbol where
  id : Nat
  name : String
  nice_name : String
deriving DecidableEq, Repr

/-- Grid summary denormalized into a bot. -/
structure BotGrid where
  id : Nat
  name : String
deriving DecidableEq, Repr

/-- Bot entity. -/
structure Bot where
  id : Nat
  name : String
  market_type : String
  grid_mode : String
  lm : String
  lwe : ℚ
  sm : String
  swe : ℚ
  leverage : ℚ
  assigned_balance : ℚ
  oh_mode : Bool
  show_logs : Bool
  is_on_trend : Bool
  is_on_routines : Bool
  pid : Option Int
  started_at : Option String
  stopped_at : Option String
  is_running : Bool
  user_id : Nat
  exchange_id : Nat
  grid_id : Option Nat
  symbol_id : Nat
  exchange : Option BotExchange
  symbol : Option BotSymbol
  grid : Option BotGrid
  created_at : String
  updated_at : String
deriving DecidableEq, Repr

/-- Bot parameters payload. -/
structure BotParameters where
  bot_modes : List (String × String)
  grid_modes : List (String × String)
  market_types : List (String × String)
  grids : List GridSummary
  symbols : List SymbolSummary
  fields : FieldsInfo
deriving DecidableEq, Repr

/-- Bot status payload. -/
structure BotStatus where
  id : Nat
  name : String
  pid : Option Int
  is_running : Bool
  started_at : Option String
  stopped_at : Option String
deriving DecidableEq, Repr

/-- Trade entity. -/
structure Trade where
  id : Nat
  exchange_id : Nat
  position_id : Nat
  symbol : String
  nice_name : String
  order_id : String
  order_oid : Option String
  side : String
  qty : Option String
  order_price : Option ℚ
  order_type : String
  exec_type : String
  closed_size : Option String
  avg_entry_price : Option String
  avg_exit_price : Option String
  closed_pnl : Option String
  fill_count : Option Int
  leverage : Option ℚ
  created_at : String
  updated_at : String
deriving DecidableEq, Repr

/-- One pnl aggregation record. -/
structure PnlRecord where
  date : Option String
  year : Option Nat
  month : Option Nat
  month_name : Option String
  symbol : String
  total_trades : Int
  pnl : String
deriving DecidableEq, Repr

/-- Pnl statistics payload. -/
structure PnlStatsResponse where
  period : String
  records : List PnlRecord
  global_pnl : String
deriving DecidableEq, Repr

/-- Pagination links envelope section. -/
structure PaginationLinks where
  first : String
  last : String
  prev : Option String
  next : Option String
deriving DecidableEq, Repr

/-- Pagination meta envelope section. -/
structure PaginationMeta where
  current_page : Nat
  from_page : Nat
  last_page : Nat
  path : String
  per_page : Nat
  to_page : Nat
  total : Nat
deriving DecidableEq, Repr

/-- Paginated list response envelope. -/
structure PaginatedResponse (α : Type) where
  data : List α
  links : PaginationLinks
  meta : PaginationMeta
deriving DecidableEq, Repr

/-- Response wrapping a single data payload. -/
structure SingleResponse (α : Type) where
  data : α
deriving DecidableEq, Repr

/-- Response wrapping a message and a data payload. -/
structure MessageResponse (α : Type) where
  message : String
  data : α
deriving DecidableEq, Repr

/-! ## Handler parameter shapes (schema-validated tool inputs) -/

/-- Parameters of the create-user tool; the admin flag is defaulted to
false by the schema, so it always reaches the client call. -/
structure CreateUserParams where
  name : String
  email : String
  password : String
  role : Int
  admin : Bool
deriving DecidableEq, Repr

/-- Parameters of the create-routine tool. -/
structure CreateRoutineParams where
  user_id : Nat
  name : String
  grid_mode : String
  grid_id : Nat
  lm : String
  lwe : ℚ
  sm : String
  swe : ℚ
deriving DecidableEq, Repr

/-- Parameters of the update-routine tool; absent optional fields are
none. -/
structure UpdateRoutineParams where
  id : String
  name : Option String
  grid_mode : Option String
  grid_id : Option Nat
  lm : Option String
  lwe : Option ℚ
  sm : Option String
  swe : Option ℚ
deriving DecidableEq, Repr

/-- Parameters of the create-exchange tool; is_testnet is defaulted to
false by the schema. -/
structure CreateExchangeParams where
  user_id : Nat
  name : String
  exchange : String
  risk_mode : String
  api_key : String
  api_secret : String
  api_frase : Option String
  is_testnet : Bool
deriving DecidableEq, Repr

/-- Parameters of the update-exchange tool. -/
structure UpdateExchangeParams where
  id : Nat
  name : Option String
  exchange : Option String
  risk_mode : Option String
  api_key : Option String
  api_secret : Option String
  api_frase : Option String
  is_testnet : Option Bool
deriving DecidableEq, Repr

/-- Parameters of the create-bot tool. -/
structure CreateBotParams where
  name : String
  exchange_id : Nat
  symbol_id : Nat
  market_type : String
  grid_mode : String
  grid_id : Option Nat
  lm : String
  lwe : ℚ
  sm : String
  swe : ℚ
  leverage : Option ℚ
  assigned_balance : Option ℚ
  oh_mode : Option Bool
  show_logs : Option Bool
  is_on_trend : Option Bool
  is_on_routines : Option Bool
deriving DecidableEq, Repr

/-- Parameters of the update-bot tool; grid_id distinguishes absent
(none) from an explicit null (some none). -/
structure UpdateBotParams where
  id : Nat
  name : Option String
  symbol_id : Option Nat
  market_type : Option String
  grid_mode : Option String
  grid_id : Option (Option Nat)
  lm : Option String
  lwe : Option ℚ
  sm : Option String
  swe : Option ℚ
  leverage : Option ℚ
  assigned_balance : Option ℚ
  oh_mode : Option Bool
  show_logs : Option Bool
  is_on_trend : Option Bool
  is_on_routines : Option Bool
deriving DecidableEq, Repr

/-- Parameters of the list-trades tool. -/
structure ListTradesParams where
  exchange_id : Nat
  symbol : Option String
  from_date : Option String
  to_date : Option String
  per_page : Option Nat
  sort_by : Option String
  sort_order : Option String
deriving DecidableEq, Repr

/-- Parameters of the pnl-stats tool. -/
structure PnlStatsParams where
  exchange_id : Nat
  period : Option String
  month : Option Nat
  year : Option Nat
deriving DecidableEq, Repr

/-! ## The API client request builders (rich client variant) -/

/-- A body field present exactly when the optional value is supplied,
mirroring JSON.stringify dropping undefined properties. -/
def optEntry (k : String) (o : Option JVal) : JBody :=
  match o with
  | none => []
  | some v => [(k, v)]

/-- Same shape for the fields of a nested sub-object. -/
def optPrims (k : String) (o : Option JPrim) : List (String × JPrim) :=
  match o with
  | none => []
  | some v => [(k, v)]

/-- A query fragment present exactly when the guard holds. -/
def optPart (cond : Bool) (part : String) : List String :=
  if cond then [part] else []

namespace KripttyApiClient

def listUsers : ApiRequest := ⟨"/users", "GET", none⟩

def getUser (id : Nat) : ApiRequest := ⟨"/users/" ++ natDec id, "GET", none⟩

def createUser (p : CreateUserParams) : ApiRequest :=
  ⟨"/users", "POST", some [("name", JVal.prim (JPrim.str p.name)),
    ("email", JVal.prim (JPrim.str p.email)),
    ("password", JVal.prim (JPrim.str p.password)),
    ("role", JVal.prim (JPrim.num p.role)),
    ("admin", JVal.prim (JPrim.bool p.admin))]⟩

def updateUser (id : Nat) (data : JBody) : ApiRequest :=
  ⟨"/users/" ++ natDec id, "PATCH", some data⟩

def getRoutineParameters : ApiRequest := ⟨"/routine-parameters", "GET", none⟩

def listRoutines : ApiRequest := ⟨"/routines", "GET", none⟩

def getRoutine (id : String) : ApiRequest := ⟨"/routines/" ++ id, "GET", none⟩

def createRoutine (user_id : Nat) (name : String)
    (action : List (String × JPrim)) : ApiRequest :=
  ⟨"/routines", "POST", some [("user_id", JVal.prim (JPrim.num user_id)),
    ("name", JVal.prim (JPrim.str name)), ("action", JVal.obj action)]⟩

def updateRoutine (id : String) (data : JBody) : ApiRequest :=
  ⟨"/routines/" ++ id, "PATCH", some data⟩

/-- Rich client variant: the run call carries the target exchange in the
request body. -/
def runRoutine (id : String) (exchange_id : Nat) : ApiRequest :=
  ⟨"/routines/" ++ id ++ "/run", "POST",
    some [("exchange_id", JVal.prim (JPrim.num exchange_id))]⟩

def getExchangeParameters : ApiRequest := ⟨"/exchange-parameters", "GET", none⟩

def listExchanges (userId : Nat) : ApiRequest :=
  ⟨"/exchanges?user_id=" ++ natDec userId, "GET", none⟩

def getExchange (id : Nat) : ApiRequest :=
  ⟨"/exchanges/" ++ natDec id, "GET", none⟩

def createExchange (p : CreateExchangeParams) : ApiRequest :=
  ⟨"/exchanges", "POST", some
    ([("user_id", JVal.prim (JPrim.num p.user_id)),
      ("name", JVal.prim (JPrim.str p.name)),
      ("exchange", JVal.prim (JPrim.str p.exchange)),
      ("risk_mode", JVal.prim (JPrim.str p.risk_mode)),
      ("api_key", JVal.prim (JPrim.str p.api_key)),
      ("api_secret", JVal.prim (JPrim.str p.api_secret))]
      ++ optEntry "api_frase" (p.api_frase.map (fun s => JVal.prim (JPrim.str s)))
      ++ [("is_testnet", JVal.prim (JPrim.bool p.is_testnet))])⟩

def updateExchange (id : Nat) (data : JBody) : ApiRequest :=
  ⟨"/exchanges/" ++ natDec id, "PATCH", some data⟩

def refreshExchange (id : Nat) : ApiRequest :=
  ⟨"/exchanges/" ++ natDec id ++ "/refresh", "POST", none⟩

def getBotParameters : ApiRequest := ⟨"/bot-parameters", "GET", none⟩

/-- The bots list request: the query holds the user filter and then the
exchange filter, each exactly when defined. -/
def listBots (user_id exchange_id : Option Nat) : ApiRequest :=
  ⟨"/bots?" ++ String.intercalate "&"
    (optPart user_id.isSome ("user_id=" ++ natDec (user_id.getD 0))
      ++ optPart exchange_id.isSome ("exchange_id=" ++ natDec (exchange_id.getD 0))),
    "GET", none⟩

def getBot (id : Nat) : ApiRequest := ⟨"/bots/" ++ natDec id, "GET", none⟩

def createBot (p : CreateBotParams) : ApiRequest :=
  ⟨"/bots", "POST", some
    ([("name", JVal.prim (JPrim.str p.name)),
      ("exchange_id", JVal.prim (JPrim.num p.exchange_id)),
      ("symbol_id", JVal.prim (JPrim.num p.symbol_id)),
      ("market_type", JVal.prim (JPrim.str p.market_type)),
      ("grid_mode", JVal.prim (JPrim.str p.grid_mode))]
      ++ optEntry "grid_id" (p.grid_id.map (fun n => JVal.prim (JPrim.num n)))
      ++ [("lm", JVal.prim (JPrim.str p.lm)),
        ("lwe", JVal.prim (JPrim.num p.lwe)),
        ("sm", JVal.prim (JPrim.str p.sm)),
        ("swe", JVal.prim (JPrim.num p.swe))]
      ++ optEntry "leverage" (p.leverage.map (fun q => JVal.prim (JPrim.num q)))
      ++ optEntry "assigned_balance"
        (p.assigned_balance.map (fun q => JVal.prim (JPrim.num q)))
      ++ optEntry "oh_mode" (p.oh_mode.map (fun b => JVal.prim (JPrim.bool b)))
      ++ optEntry "show_logs" (p.show_logs.map (fun b => JVal.prim (JPrim.bool b)))
      ++ optEntry "is_on_trend" (p.is_on_trend.map (fun b => JVal.prim (JPrim.bool b)))
      ++ optEntry "is_on_routines"
        (p.is_on_routines.map (fun b => JVal.prim (JPrim.bool b))))⟩

def updateBot (id : Nat) (data : JBody) : ApiRequest :=
  ⟨"/bots/" ++ natDec id, "PATCH", some data⟩

def startBot (id : Nat) : ApiRequest :=
  ⟨"/bots/" ++ natDec id ++ "/start", "POST", none⟩

def stopBot (id : Nat) : ApiRequest :=
  ⟨"/bots/" ++ natDec id ++ "/stop", "POST", none⟩

def restartBot (id : Nat) : ApiRequest :=
  ⟨"/bots/" ++ natDec id ++ "/restart", "POST", none⟩

def swapBotWe (id : Nat) (new_trend : String) : ApiRequest :=
  ⟨"/bots/" ++ natDec id ++ "/swap-we", "POST",
    some [("new_trend", JVal.prim (JPrim.str new_trend))]⟩

def simpleSwapBotWe (id : Nat) : ApiRequest :=
  ⟨"/bots/" ++ natDec id ++ "/simple-swap-we", "POST", none⟩

def getBotStatus (id : Nat) : ApiRequest :=
  ⟨"/bots/" ++ natDec id ++ "/status", "GET", none⟩

def listTrades (p : ListTradesParams) : ApiRequest :=
  ⟨"/trades?" ++ String.intercalate "&"
    (["exchange_id=" ++ natDec p.exchange_id]
      ++ optPart (jsTruthyStr p.symbol) ("symbol=" ++ p.symbol.getD "")
      ++ optPart (jsTruthyStr p.from_date) ("from_date=" ++ p.from_date.getD "")
      ++ optPart (jsTruthyStr p.to_date) ("to_date=" ++ p.to_date.getD "")
      ++ optPart p.per_page.isSome ("per_page=" ++ natDec (p.per_page.getD 0))
      ++ optPart (jsTruthyStr p.sort_by) ("sort_by=" ++ p.sort_by.getD "")
      ++ optPart (jsTruthyStr p.sort_order) ("sort_order=" ++ p.sort_order.getD "")),
    "GET", none⟩

def getTrade (id : Nat) : ApiRequest := ⟨"/trades/" ++ natDec id, "GET", none⟩

def listTradeSymbols (exchangeId : Nat) : ApiRequest :=
  ⟨"/trades/symbols?exchange_id=" ++ natDec exchangeId, "GET", none⟩

def getPnlStats (p : PnlStatsParams) : ApiRequest :=
  ⟨"/trades/stats/pnl?" ++ String.intercalate "&"
    (["exchange_id=" ++ natDec p.exchange_id]
      ++ optPart (jsTruthyStr p.period) ("period=" ++ p.period.getD "")
      ++ optPart p.month.isSome ("month=" ++ natDec (p.month.getD 0))
      ++ optPart p.year.isSome ("year=" ++ natDec (p.year.getD 0))),
    "GET", none⟩

end KripttyApiClient

namespace KripttyApiClientMinimal

/-- Minimal client variant: the run call takes no exchange argument and
sends no body. -/
def runRoutine (id : String) : ApiRequest :=
  ⟨"/routines/" ++ id ++ "/run", "POST", none⟩

end KripttyApiClientMinimal

/-! ## Tool handlers

Each handler is a pure function from its parameters and the outcome of
its single gateway call to the pair of the issued request list and
either the display text or a propagated non-structured error. -/

namespace Tools

/-- Success rendering of the list-users tool. -/
def listUsersText (users : List User) : String :=
  "Users (Total: " ++ natDec users.length ++ "):\n\n" ++
    String.intercalate "\n" (users.map (fun user =>
      "- ID: " ++ natDec user.id ++ ", Name: " ++ user.name ++ ", Email: " ++
        user.email ++ ", Admin: " ++ (if user.admin then "Yes" else "No") ++
        ", Role: " ++ intDec user.role ++ "\n  Exchanges: " ++
        (if user.exchanges.length > 0 then
          String.intercalate ", " (user.exchanges.map (fun e =>
            e.name ++ " (" ++ e.exchange ++ ", ID: " ++ natDec e.id ++ ")"))
        else "None")))

def listUsers (r : CallResult (SingleResponse (List User))) :
    List ApiRequest × CallResult String :=
  ([KripttyApiClient.listUsers],
    match r with
    | Except.ok resp => Except.ok (listUsersText resp.data)
    | Except.error (ReqError.api e) =>
      Except.ok ("Error fetching users: " ++ e.message)
    | Except.error (ReqError.transport m) =>
      Except.error (ReqError.transport m))

/-- Success rendering of the get-user tool. -/
def getUserText (user : User) : String :=
  "User Details:\n- ID: " ++ natDec user.id ++ "\n- Name: " ++ user.name ++
    "\n- Email: " ++ user.email ++ "\n- Admin: " ++
    (if user.admin then "Yes" else "No") ++ "\n- Role: " ++ intDec user.role ++
    "\n- Timezone: " ++ jsOrStr user.timezone "Not set" ++ "\n- Last Seen: " ++
    jsOrStr user.last_seen "Never" ++ "\n- Created: " ++ user.created_at

def getUser (id : Nat) (r : CallResult (SingleResponse User)) :
    List ApiRequest × CallResult String :=
  ([KripttyApiClient.getUser id],
    match r with
    | Except.ok resp => Except.ok (getUserText resp.data)
    | Except.error (ReqError.api e) =>
      if e.status = 404 then
        Except.ok ("User with ID " ++ natDec id ++ " not found.")
      else Except.ok ("Error fetching user: " ++ e.message)
    | Except.error (ReqError.transport m) =>
      Except.error (ReqError.transport m))

/-- Success rendering of the create-user tool. -/
def createUserText (user : User) : String :=
  "User created successfully:\n- ID: " ++ natDec user.id ++ "\n- Name: " ++
    user.name ++ "\n- Email: " ++ user.email ++ "\n- Admin: " ++
    (if user.admin then "Yes" else "No") ++ "\n- Role: " ++ intDec user.role

def createUser (p : CreateUserParams) (r : CallResult (SingleResponse User)) :
    List ApiRequest × CallResult String :=
  ([KripttyApiClient.createUser p],
    match r with
    | Except.ok resp => Except.ok (createUserText resp.data)
    | Except.error (ReqError.api e) =>
      Except.ok ("Error creating user: " ++ e.message)
    | Except.error (ReqError.transport m) =>
      Except.error (ReqError.transport m))

def updateUserEmail (user_id : Nat) (email : String)
    (r : CallResult (SingleResponse User)) :
    List ApiRequest × CallResult String :=
  ([KripttyApiClient.updateUser user_id
      [("email", JVal.prim (JPrim.str email))]],
    match r with
    | Except.ok resp =>
      Except.ok ("User " ++ natDec resp.data.id ++ " email updated to: " ++
        resp.data.email)
    | Except.error (ReqError.api e) =>
      if e.status = 404 then
        Except.ok ("User with ID " ++ natDec user_id ++ " not found.")
      else Except.ok ("Error updating email: " ++ e.message)
    | Except.error (ReqError.transport m) =>
      Except.error (ReqError.transport m))

def updateUserName (user_id : Nat) (name : String)
    (r : CallResult (SingleResponse User)) :
    List ApiRequest × CallResult String :=
  ([KripttyApiClient.updateUser user_id
      [("name", JVal.prim (JPrim.str name))]],
    match r with
    | Except.ok resp =>
      Except.ok ("User " ++ natDec resp.data.id ++ " name updated to: " ++
        resp.data.name)
    | Except.error (ReqError.api e) =>
      if e.status = 404 then
        Except.ok ("User with ID " ++ natDec user_id ++ " not found.")
      else Except.ok ("Error updating name: " ++ e.message)
    | Except.error (ReqError.transport m) =>
      Except.error (ReqError.transport m))

def updateUserPassword (user_id : Nat) (password : String)
    (r : CallResult (SingleResponse User)) :
    List ApiRequest × CallResult String :=
  ([KripttyApiClient.updateUser user_id
      [("password", JVal.prim (JPrim.str password))]],
    match r with
    | Except.ok _ =>
      Except.ok ("User " ++ natDec user_id ++ " password updated successfully.")
    | Except.error (ReqError.api e) =>
      if e.status = 404 then
        Except.ok ("User with ID " ++ natDec user_id ++ " not found.")
      else Except.ok ("Error updating password: " ++ e.message)
    | Except.error (ReqError.transport m) =>
      Except.error (ReqError.transport m))

def updateUserAdmin (user_id : Nat) (admin : Bool)
    (r : CallResult (SingleResponse User)) :
    List ApiRequest × CallResult String :=
  ([KripttyApiClient.updateUser user_id
      [("admin", JVal.prim (JPrim.bool admin))]],
    match r with
    | Except.ok resp =>
      Except.ok ("User " ++ natDec resp.data.id ++ " admin status set to: " ++
        (if resp.data.admin then "Yes" else "No"))
    | Except.error (ReqError.api e) =>
      if e.status = 404 then
        Except.ok ("User with ID " ++ natDec user_id ++ " not found.")
      else Except.ok ("Error updating admin status: " ++ e.message)
    | Except.error (ReqError.transport m) =>
      Except.error (ReqError.transport m))

def updateUserRole (user_id : Nat) (role : Int)
    (r : CallResult (SingleResponse User)) :
    List ApiRequest × CallResult String :=
  ([KripttyApiClient.updateUser user_id
      [("role", JVal.prim (JPrim.num role))]],
    match r with
    | Except.ok resp =>
      Except.ok ("User " ++ natDec resp.data.id ++ " role updated to: " ++
        intDec resp.data.role)
    | Except.error (ReqError.api e) =>
      if e.status = 404 then
        Except.ok ("User with ID " ++ natDec user_id ++ " not found.")
      else Except.ok ("Error updating role: " ++ e.message)
    | Except.error (ReqError.transport m) =>
      Except.error (ReqError.transport m))

/-- The static roles listing; performs no call. -/
def listRoles : String :=
  "Available Roles:\n- Role 1: Admin\n- Role 2: User"

/-! ### Trades family -/

/-- The pnl value of a trade: a falsy closed_pnl field (null or the
empty string) renders as zero, otherwise the string is parsed. -/
def tradePnl (t : Trade) : Option ℚ :=
  if jsTruthyStr t.closed_pnl then parseDec (t.closed_pnl.getD "")
  else some 0

/-- Text of the trade list line before its pnl figure. -/
def formatTradePre (t : Trade) : String :=
  "- ID: " ++ natDec t.id ++ " | " ++ t.nice_name ++ " | " ++ t.side ++
    " | Qty: " ++ jsOrStr t.qty "N/A" ++ " | PnL: "

/-- One-line trade rendering of the trade list. -/
def formatTrade (t : Trade) : String :=
  formatTradePre t ++ (jsSignedPnl (tradePnl t) ++ (" | " ++ t.created_at))

/-- Text of the detailed trade rendering before its pnl figure. -/
def formatTradeDetailedPre (t : Trade) : String :=
  "Trade Details:\n- ID: " ++ natDec t.id ++ "\n- Exchange ID: " ++
    natDec t.exchange_id ++ "\n- Symbol: " ++ t.symbol ++ " (" ++
    t.nice_name ++ ")\n- Side: " ++ t.side ++ "\n- Order Type: " ++
    t.order_type ++ "\n- Exec Type: " ++ t.exec_type ++ "\n- Quantity: " ++
    jsOrStr t.qty "N/A" ++ "\n- Order Price: " ++ jsOrQ t.order_price "N/A" ++
    "\n- Avg Entry Price: " ++ jsOrStr t.avg_entry_price "N/A" ++
    "\n- Avg Exit Price: " ++ jsOrStr t.avg_exit_price "N/A" ++
    "\n- Closed Size: " ++ jsOrStr t.closed_size "N/A" ++
    "\n- Closed PnL: "

/-- Text of the detailed trade rendering after its pnl figure. -/
def formatTradeDetailedSuf (t : Trade) : String :=
  "\n- Leverage: " ++ jsOrQ t.leverage "N/A" ++ "x" ++
    "\n- Fill Count: " ++ jsOrInt t.fill_count "N/A" ++
    "\n- Order ID: " ++ t.order_id ++
    "\n- Order OID: " ++ jsOrStr t.order_oid "N/A" ++
    "\n- Created: " ++ t.created_at ++ "\n- Updated: " ++ t.updated_at

/-- Detailed trade rendering of the get-trade tool. -/
def formatTradeDetailed (t : Trade) : String :=
  formatTradeDetailedPre t ++
    (jsSignedPnl (tradePnl t) ++ formatTradeDetailedSuf t)

/-- Period-dependent date label of a pnl record: the date string for the
daily period, month name and year for the monthly period, the year
rendering otherwise, with falsy fields skipping their branch. -/
def pnlDateStr (period : String) (r : PnlRecord) : String :=
  if period = "daily" ∧ jsTruthyStr r.date then r.date.getD ""
  else if period = "monthly" ∧ jsTruthyStr r.month_name then
    (r.month_name.getD "") ++ " " ++ jsNatOrUndefined r.year
  else if jsTruthyNat r.year then natDec (r.year.getD 0)
  else ""

/-- Standalone pnl record rendering helper of the trades module. -/
def formatPnlRecord (record : PnlRecord) (period : String) : String :=
  ("  - " ++ record.symbol ++ ": " ++ intDec record.total_trades ++
    " trades, PnL: ") ++ (jsSignedPnl (parseDec record.pnl) ++
    (" (" ++ pnlDateStr period record ++ ")"))

/-- Success rendering of the list-trades tool. -/
def listTradesText (p : ListTradesParams) (resp : PaginatedResponse Trade) :
    String :=
  if resp.data.length = 0 then
    "No trades found for exchange " ++ natDec p.exchange_id ++
      (if jsTruthyStr p.symbol then " with symbol " ++ p.symbol.getD ""
        else "") ++ "."
  else
    "Trades for Exchange " ++ natDec p.exchange_id ++ " (Page " ++
      natDec resp.meta.current_page ++ "/" ++ natDec resp.meta.last_page ++
      ", Total: " ++ natDec resp.meta.total ++ "):\n\n" ++
      String.intercalate "\n" (resp.data.map formatTrade) ++
      "\n\nPagination: Showing " ++ natDec resp.meta.from_page ++ "-" ++
      natDec resp.meta.to_page ++ " of " ++ natDec resp.meta.total ++ " trades"

def listTrades (p : ListTradesParams)
    (r : CallResult (PaginatedResponse Trade)) :
    List ApiRequest × CallResult String :=
  ([KripttyApiClient.listTrades p],
    match r with
    | Except.ok resp => Except.ok (listTradesText p resp)
    | Except.error (ReqError.api e) =>
      Except.ok ("Error fetching trades: " ++ e.message)
    | Except.error (ReqError.transport m) =>
      Except.error (ReqError.transport m))

def getTrade (id : Nat) (r : CallResult (SingleResponse Trade)) :
    List ApiRequest × CallResult String :=
  ([KripttyApiClient.getTrade id],
    match r with
    | Except.ok resp => Except.ok (formatTradeDetailed resp.data)
    | Except.error (ReqError.api e) =>
      if e.status = 404 then
        Except.ok ("Trade with ID " ++ natDec id ++ " not found.")
      else Except.ok ("Error fetching trade: " ++ e.message)
    | Except.error (ReqError.transport m) =>
      Except.error (ReqError.transport m))

/-- Success rendering of the list-trade-symbols tool. -/
def listTradeSymbolsText (exchange_id : Nat) (symbols : List String) :
    String :=
  if symbols.length = 0 then
    "No traded symbols found for exchange " ++ natDec exchange_id ++ "."
  else
    "Traded Symbols for Exchange " ++ natDec exchange_id ++ " (Total: " ++
      natDec symbols.length ++ "):\n\n" ++
      String.intercalate "\n" (symbols.map (fun s => "  - " ++ s))

def listTradeSymbols (exchange_id : Nat)
    (r : CallResult (SingleResponse (List String))) :
    List ApiRequest × CallResult String :=
  ([KripttyApiClient.listTradeSymbols exchange_id],
    match r with
    | Except.ok resp => Except.ok (listTradeSymbolsText exchange_id resp.data)
    | Except.error (ReqError.api e) =>
      Except.ok ("Error fetching trade symbols: " ++ e.message)
    | Except.error (ReqError.transport m) =>
      Except.error (ReqError.transport m))

/-- Grouping key of the pnl statistics loop, identical in shape to the
record date label. -/
def pnlGroupKey (period : String) (r : PnlRecord) : String :=
  if period = "daily" ∧ jsTruthyStr r.date then r.date.getD ""
  else if period = "monthly" ∧ jsTruthyStr r.month_name then
    (r.month_name.getD "") ++ " " ++ jsNatOrUndefined r.year
  else if jsTruthyNat r.year then natDec (r.year.getD 0)
  else ""

/-- One detail line of a pnl statistics group. -/
def pnlRecordLine (r : PnlRecord) : String :=
  "    " ++ r.symbol ++ ": " ++ intDec r.total_trades ++ " trades, " ++
    jsSignedPnl (parseDec r.pnl)

/-- One rendered group of the pnl statistics report: the subtotal line
over the accumulated records of the group followed by one line per
record. -/
def pnlGroupBlock (kv : String × List PnlRecord) : String :=
  (kv.1 ++ ": " ++
    intDec (kv.2.foldl (fun s r => s + r.total_trades) (0 : Int)) ++
    " trades, PnL: ") ++
    (jsSignedPnl (kv.2.foldl (fun s r => jsAdd s (parseDec r.pnl)) (some 0)) ++
      ("\n" ++ String.intercalate "\n" (kv.2.map pnlRecordLine)))

/-- Success rendering of the pnl statistics tool: group the records into
an object keyed by the period key and render the object entries in
JavaScript property enumeration order. -/
def getPnlStatsText (exchange_id : Nat) (stats : PnlStatsResponse) : String :=
  let globalPnlStr := jsSignedPnl (parseDec stats.global_pnl)
  if stats.records.length = 0 then
    "No P&L statistics found for exchange " ++ natDec exchange_id ++
      " with period " ++ stats.period ++ ".\n\nGlobal PnL (All Time): " ++
      globalPnlStr
  else
    "P&L Statistics for Exchange " ++ natDec exchange_id ++ " (" ++
      stats.period ++ "):\n\n" ++
      String.intercalate "\n\n"
        ((jsEntries (buildGroups (pnlGroupKey stats.period) stats.records []))
          |>.map pnlGroupBlock) ++
      "\n\nGlobal PnL (All Time): " ++ globalPnlStr

def getPnlStats (p : PnlStatsParams)
    (r : CallResult (SingleResponse PnlStatsResponse)) :
    List ApiRequest × CallResult String :=
  ([KripttyApiClient.getPnlStats p],
    match r with
    | Except.ok resp => Except.ok (getPnlStatsText p.exchange_id resp.data)
    | Except.error (ReqError.api e) =>
      Except.ok ("Error fetching P&L statistics: " ++ e.message)
    | Except.error (ReqError.transport m) =>
      Except.error (ReqError.transport m))


/-! ### Routines family -/

/-- Key and label lines of a record payload section. -/
def kvLines (l : List (String × String)) : String :=
  String.intercalate "\n" (l.map (fun kv => "  - " ++ kv.1 ++ ": " ++ kv.2))

/-- Success rendering of the routine-parameters tool. -/
def getRoutineParametersText (p : RoutineParameters) : String :=
  let grids := String.intercalate "\n" (p.grids.map (fun g =>
    "  - ID: " ++ natDec g.id ++ ", Name: " ++ g.name ++ ", User: " ++
      natDec g.user_id))
  "Routine Parameters:\n\nGrid Modes:\n" ++ kvLines (jsEntries p.grid_modes) ++
    "\n\nBot Modes (for lm/sm):\n" ++ kvLines (jsEntries p.bot_modes) ++
    "\n\nAvailable Grids:\n" ++ (if grids = "" then "  (none)" else grids)

def getRoutineParameters (r : CallResult (SingleResponse RoutineParameters)) :
    List ApiRequest × CallResult String :=
  ([KripttyApiClient.getRoutineParameters],
    match r with
    | Except.ok resp => Except.ok (getRoutineParametersText resp.data)
    | Except.error (ReqError.api e) =>
      Except.ok ("Error fetching routine parameters: " ++ e.message)
    | Except.error (ReqError.transport m) =>
      Except.error (ReqError.transport m))

/-- Success rendering of the list-routines tool. -/
def listRoutinesText (routines : List Routine) : String :=
  if routines.length = 0 then "No routines found."
  else
    "Routines (Total: " ++ natDec routines.length ++ "):\n\n" ++
      String.intercalate "\n\n" (routines.map (fun routine =>
        "- ID: " ++ routine.id ++ "\n  Name: " ++ routine.name ++
          "\n  User: " ++ natDec routine.user_id ++ "\n  Type: " ++
          routine.type ++ "\n  Grid Mode: " ++ routine.action.grid_mode ++
          ", Grid ID: " ++ intDec routine.action.grid_id ++ "\n  Long: " ++
          routine.action.lm ++ " (WE: " ++ jsNumRepr routine.action.lwe ++
          ")\n  Short: " ++ routine.action.sm ++ " (WE: " ++
          jsNumRepr routine.action.swe ++ ")\n  Last Run: " ++
          jsOrStr routine.triggered_at "Never"))

def listRoutines (r : CallResult (SingleResponse (List Routine))) :
    List ApiRequest × CallResult String :=
  ([KripttyApiClient.listRoutines],
    match r with
    | Except.ok resp => Except.ok (listRoutinesText resp.data)
    | Except.error (ReqError.api e) =>
      Except.ok ("Error fetching routines: " ++ e.message)
    | Except.error (ReqError.transport m) =>
      Except.error (ReqError.transport m))

/-- Success rendering of the get-routine tool. -/
def getRoutineText (routine : Routine) : String :=
  "Routine Details:\n- ID: " ++ routine.id ++ "\n- Name: " ++ routine.name ++
    "\n- User ID: " ++ natDec routine.user_id ++ "\n- Type: " ++
    routine.type ++ "\n- Grid Mode: " ++ routine.action.grid_mode ++
    "\n- Grid ID: " ++ intDec routine.action.grid_id ++ "\n- Long Mode: " ++
    routine.action.lm ++ "\n- Long Wallet Exposure: " ++
    jsNumRepr routine.action.lwe ++ "\n- Short Mode: " ++ routine.action.sm ++
    "\n- Short Wallet Exposure: " ++ jsNumRepr routine.action.swe ++
    "\n- Last Run: " ++ jsOrStr routine.triggered_at "Never" ++
    "\n- Triggered By: " ++ jsOrStr routine.triggered_by "N/A" ++
    "\n- Created: " ++ routine.created_at

def getRoutine (id : String) (r : CallResult (SingleResponse Routine)) :
    List ApiRequest × CallResult String :=
  ([KripttyApiClient.getRoutine id],
    match r with
    | Except.ok resp => Except.ok (getRoutineText resp.data)
    | Except.error (ReqError.api e) =>
      if e.status = 404 then
        Except.ok ("Routine with ID " ++ id ++ " not found.")
      else Except.ok ("Error fetching routine: " ++ e.message)
    | Except.error (ReqError.transport m) =>
      Except.error (ReqError.transport m))

/-- Success rendering of the create-routine tool. -/
def createRoutineText (routine : Routine) : String :=
  "Routine created successfully:\n- ID: " ++ routine.id ++ "\n- Name: " ++
    routine.name ++ "\n- User ID: " ++ natDec routine.user_id ++
    "\n- Grid Mode: " ++ routine.action.grid_mode ++ "\n- Grid ID: " ++
    intDec routine.action.grid_id ++ "\n- Long Mode: " ++ routine.action.lm ++
    " (WE: " ++ jsNumRepr routine.action.lwe ++ ")\n- Short Mode: " ++
    routine.action.sm ++ " (WE: " ++ jsNumRepr routine.action.swe ++ ")"

def createRoutine (p : CreateRoutineParams)
    (r : CallResult (SingleResponse Routine)) :
    List ApiRequest × CallResult String :=
  ([KripttyApiClient.createRoutine p.user_id p.name
      [("grid_mode", JPrim.str p.grid_mode), ("grid_id", JPrim.num p.grid_id),
        ("lm", JPrim.str p.lm), ("lwe", JPrim.num p.lwe),
        ("sm", JPrim.str p.sm), ("swe", JPrim.num p.swe)]],
    match r with
    | Except.ok resp => Except.ok (createRoutineText resp.data)
    | Except.error (ReqError.api e) =>
      Except.ok ("Error creating routine: " ++ e.message)
    | Except.error (ReqError.transport m) =>
      Except.error (ReqError.transport m))

/-- The sparse action sub-object of a routine update: only the supplied
action fields are inserted, in the source field order. -/
def routineActionUpdates (p : UpdateRoutineParams) : List (String × JPrim) :=
  optPrims "grid_mode" (p.grid_mode.map (fun v => JPrim.str v))
  ++ optPrims "grid_id" (p.grid_id.map (fun v => JPrim.num v))
  ++ optPrims "lm" (p.lm.map (fun v => JPrim.str v))
  ++ optPrims "lwe" (p.lwe.map (fun v => JPrim.num v))
  ++ optPrims "sm" (p.sm.map (fun v => JPrim.str v))
  ++ optPrims "swe" (p.swe.map (fun v => JPrim.num v))

/-- The routine update body: a truthy name field, then the action object
exactly when at least one action field was supplied. -/
def updateRoutineBody (p : UpdateRoutineParams) : JBody :=
  (if jsTruthyStr p.name
    then [("name", JVal.prim (JPrim.str (p.name.getD "")))] else [])
  ++ (if (routineActionUpdates p).length > 0
    then [("action", JVal.obj (routineActionUpdates p))] else [])

/-- Success rendering of the update-routine tool. -/
def updateRoutineText (routine : Routine) : String :=
  "Routine updated successfully:\n- ID: " ++ routine.id ++ "\n- Name: " ++
    routine.name ++ "\n- Grid Mode: " ++ routine.action.grid_mode ++
    "\n- Grid ID: " ++ intDec routine.action.grid_id ++ "\n- Long Mode: " ++
    routine.action.lm ++ " (WE: " ++ jsNumRepr routine.action.lwe ++
    ")\n- Short Mode: " ++ routine.action.sm ++ " (WE: " ++
    jsNumRepr routine.action.swe ++ ")"

def updateRoutine (p : UpdateRoutineParams)
    (r : CallResult (SingleResponse Routine)) :
    List ApiRequest × CallResult String :=
  ([KripttyApiClient.updateRoutine p.id (updateRoutineBody p)],
    match r with
    | Except.ok resp => Except.ok (updateRoutineText resp.data)
    | Except.error (ReqError.api e) =>
      if e.status = 404 then
        Except.ok ("Routine with ID " ++ p.id ++ " not found.")
      else Except.ok ("Error updating routine: " ++ e.message)
    | Except.error (ReqError.transport m) =>
      Except.error (ReqError.transport m))

/-- The run-routine handler: its one-argument client call matches the
minimal client variant, which sends no body. -/
def runRoutine (id : String) (r : CallResult (MessageResponse Routine)) :
    List ApiRequest × CallResult String :=
  ([KripttyApiClientMinimal.runRoutine id],
    match r with
    | Except.ok resp =>
      Except.ok (resp.message ++ "\n- Routine: " ++ resp.data.name ++
        "\n- Triggered At: " ++ jsStrOrNull resp.data.triggered_at ++
        "\n- Triggered By: " ++ jsStrOrNull resp.data.triggered_by)
    | Except.error (ReqError.api e) =>
      if e.status = 404 then
        Except.ok ("Routine with ID " ++ id ++ " not found.")
      else Except.ok ("Error running routine: " ++ e.message)
    | Except.error (ReqError.transport m) =>
      Except.error (ReqError.transport m))

/-! ### Exchanges family -/

/-- Risk mode display labels. -/
def riskModeLabels : List (String × String) :=
  [("1", "Conservative"), ("2", "Moderate"), ("3", "Kamikaze")]

/-- Label lookup with fallback to the raw key, mirroring the logical-or
on the record access. -/
def labelOr (labels : List (String × String)) (k : String) : String :=
  jsOrStr (labels.lookup k) k

/-- Per-exchange summary block of the exchange list. -/
def formatExchange (exchange : ExchangeDetailed) : String :=
  "- ID: " ++ natDec exchange.id ++ "\n  Name: " ++ exchange.name ++
    "\n  Exchange: " ++ exchange.exchange ++ "\n  Risk Mode: " ++
    labelOr riskModeLabels exchange.risk_mode ++ "\n  Testnet: " ++
    (if exchange.is_testnet then "Yes" else "No") ++ "\n  API Error: " ++
    (if exchange.api_error then "Yes (credentials may be invalid)" else "No") ++
    "\n  USDT Balance: " ++ jsOrStr exchange.usdt_balance "N/A" ++
    "\n  Created: " ++ exchange.created_at

/-- Success rendering of the exchange-parameters tool. -/
def getExchangeParametersText (p : ExchangeParameters) : String :=
  "Exchange Parameters:\n\nSupported Exchanges:\n" ++
    kvLines (jsEntries p.exchanges) ++ "\n\nRisk Modes:\n" ++
    kvLines (jsEntries p.risk_modes) ++ "\n\nRequired Fields: " ++
    String.intercalate ", " p.fields.required ++ "\nOptional Fields: " ++
    String.intercalate ", " p.fields.optional ++ "\n\nNotes:\n" ++
    kvLines (jsEntries p.fields.notes)

def getExchangeParameters
    (r : CallResult (SingleResponse ExchangeParameters)) :
    List ApiRequest × CallResult String :=
  ([KripttyApiClient.getExchangeParameters],
    match r with
    | Except.ok resp => Except.ok (getExchangeParametersText resp.data)
    | Except.error (ReqError.api e) =>
      Except.ok ("Error fetching exchange parameters: " ++ e.message)
    | Except.error (ReqError.transport m) =>
      Except.error (ReqError.transport m))

/-- Success rendering of the list-exchanges tool. -/
def listExchangesText (user_id : Nat) (exchanges : List ExchangeDetailed) :
    String :=
  if exchanges.length = 0 then
    "No exchanges found for user " ++ natDec user_id ++ "."
  else
    "Exchanges for User " ++ natDec user_id ++ " (Total: " ++
      natDec exchanges.length ++ "):\n\n" ++
      String.intercalate "\n\n" (exchanges.map formatExchange)

def listExchanges (user_id : Nat)
    (r : CallResult (SingleResponse (List ExchangeDetailed))) :
    List ApiRequest × CallResult String :=
  ([KripttyApiClient.listExchanges user_id],
    match r with
    | Except.ok resp => Except.ok (listExchangesText user_id resp.data)
    | Except.error (ReqError.api e) =>
      Except.ok ("Error fetching exchanges: " ++ e.message)
    | Except.error (ReqError.transport m) =>
      Except.error (ReqError.transport m))

/-- Success rendering of the get-exchange tool. -/
def getExchangeText (exchange : ExchangeDetailed) : String :=
  "Exchange Details:\n- ID: " ++ natDec exchange.id ++ "\n- User ID: " ++
    natDec exchange.user_id ++ "\n- Name: " ++ exchange.name ++
    "\n- Slug: " ++ exchange.slug ++ "\n- Exchange Type: " ++
    exchange.exchange ++ "\n- Risk Mode: " ++
    labelOr riskModeLabels exchange.risk_mode ++ "\n- Testnet: " ++
    (if exchange.is_testnet then "Yes" else "No") ++ "\n- API Error: " ++
    (if exchange.api_error then "Yes (credentials may be invalid)" else "No") ++
    "\n- Balances:\n  - USDT: " ++ jsOrStr exchange.usdt_balance "N/A" ++
    "\n  - USD: " ++ jsOrStr exchange.usd_balance "N/A" ++
    "\n  - BTC: " ++ jsOrStr exchange.btc_balance "N/A" ++
    "\n  - ETH: " ++ jsOrStr exchange.eth_balance "N/A" ++
    "\n- Initial USDT Balance: " ++
    jsOrStr exchange.initial_usdt_balance "Not recorded" ++
    "\n- Initial Balance Date: " ++
    jsOrStr exchange.initial_balance_recorded_at "N/A" ++
    "\n- Created: " ++ exchange.created_at ++
    "\n- Updated: " ++ exchange.updated_at

def getExchange (id : Nat)
    (r : CallResult (SingleResponse ExchangeDetailed)) :
    List ApiRequest × CallResult String :=
  ([KripttyApiClient.getExchange id],
    match r with
    | Except.ok resp => Except.ok (getExchangeText resp.data)
    | Except.error (ReqError.api e) =>
      if e.status = 404 then
        Except.ok ("Exchange with ID " ++ natDec id ++ " not found.")
      else Except.ok ("Error fetching exchange: " ++ e.message)
    | Except.error (ReqError.transport m) =>
      Except.error (ReqError.transport m))

/-- Success rendering of the create-exchange tool. -/
def createExchangeText (exchange : ExchangeDetailed) : String :=
  "Exchange created successfully:\n- ID: " ++ natDec exchange.id ++
    "\n- Name: " ++ exchange.name ++ "\n- Exchange: " ++ exchange.exchange ++
    "\n- API Error: " ++
    (if exchange.api_error then "Yes (check credentials)"
      else "No (connectivity OK)") ++
    "\n- USDT Balance: " ++ jsOrStr exchange.usdt_balance "N/A"

def createExchange (p : CreateExchangeParams)
    (r : CallResult (SingleResponse ExchangeDetailed)) :
    List ApiRequest × CallResult String :=
  ([KripttyApiClient.createExchange p],
    match r with
    | Except.ok resp => Except.ok (createExchangeText resp.data)
    | Except.error (ReqError.api e) =>
      Except.ok ("Error creating exchange: " ++ e.message)
    | Except.error (ReqError.transport m) =>
      Except.error (ReqError.transport m))

/-- The sparse exchange update body: only supplied fields are inserted,
in the source field order. -/
def updateExchangeBody (p : UpdateExchangeParams) : JBody :=
  optEntry "name" (p.name.map (fun v => JVal.prim (JPrim.str v)))
  ++ optEntry "exchange" (p.exchange.map (fun v => JVal.prim (JPrim.str v)))
  ++ optEntry "risk_mode" (p.risk_mode.map (fun v => JVal.prim (JPrim.str v)))
  ++ optEntry "api_key" (p.api_key.map (fun v => JVal.prim (JPrim.str v)))
  ++ optEntry "api_secret" (p.api_secret.map (fun v => JVal.prim (JPrim.str v)))
  ++ optEntry "api_frase" (p.api_frase.map (fun v => JVal.prim (JPrim.str v)))
  ++ optEntry "is_testnet" (p.is_testnet.map (fun v => JVal.prim (JPrim.bool v)))

/-- Success rendering of the update-exchange tool. -/
def updateExchangeText (exchange : ExchangeDetailed) : String :=
  "Exchange updated successfully:\n- ID: " ++ natDec exchange.id ++
    "\n- Name: " ++ exchange.name ++ "\n- Exchange: " ++ exchange.exchange ++
    "\n- API Error: " ++
    (if exchange.api_error then "Yes (check credentials)"
      else "No (connectivity OK)")

def updateExchange (p : UpdateExchangeParams)
    (r : CallResult (SingleResponse ExchangeDetailed)) :
    List ApiRequest × CallResult String :=
  ([KripttyApiClient.updateExchange p.id (updateExchangeBody p)],
    match r with
    | Except.ok resp => Except.ok (updateExchangeText resp.data)
    | Except.error (ReqError.api e) =>
      if e.status = 404 then
        Except.ok ("Exchange with ID " ++ natDec p.id ++ " not found.")
      else Except.ok ("Error updating exchange: " ++ e.message)
    | Except.error (ReqError.transport m) =>
      Except.error (ReqError.transport m))

def refreshExchange (id : Nat)
    (r : CallResult (MessageResponse ExchangeDetailed)) :
    List ApiRequest × CallResult String :=
  ([KripttyApiClient.refreshExchange id],
    match r with
    | Except.ok resp =>
      Except.ok (resp.message ++ "\n- ID: " ++ natDec resp.data.id ++
        "\n- Name: " ++ resp.data.name ++ "\n- API Error: " ++
        (if resp.data.api_error then
          "Yes (credentials invalid or connection failed)" else "No") ++
        "\n- USDT Balance: " ++ jsOrStr resp.data.usdt_balance "N/A")
    | Except.error (ReqError.api e) =>
      if e.status = 404 then
        Except.ok ("Exchange with ID " ++ natDec id ++ " not found.")
      else Except.ok ("Error refreshing exchange: " ++ e.message)
    | Except.error (ReqError.transport m) =>
      Except.error (ReqError.transport m))


/-! ### Bots family -/

/-- Bot mode display labels. -/
def botModeLabels : List (String × String) :=
  [("n", "Normal"), ("m", "Manual"), ("gs", "Graceful Stop"),
    ("t", "Take Profit Only"), ("p", "Panic")]

/-- Grid mode display labels. -/
def gridModeLabels : List (String × String) :=
  [("recursive", "Recursive"), ("neat", "Neat"), ("static", "Static"),
    ("clock", "Clock"), ("custom", "Custom")]

/-- Exchange column of a bot rendering. -/
def botExchangeInfo (bot : Bot) : String :=
  match bot.exchange with
  | some e => e.name ++ " (" ++ e.exchange ++ ")"
  | none => "ID: " ++ natDec bot.exchange_id

/-- Symbol column of the bot list rendering. -/
def botSymbolInfo (bot : Bot) : String :=
  match bot.symbol with
  | some s => s.nice_name
  | none => "ID: " ++ natDec bot.symbol_id

/-- Symbol column of the detailed bot rendering. -/
def botSymbolInfoDetailed (bot : Bot) : String :=
  match bot.symbol with
  | some s => s.nice_name ++ " (" ++ s.name ++ ")"
  | none => "ID: " ++ natDec bot.symbol_id

/-- Grid column of a bot rendering. -/
def botGridInfo (bot : Bot) : String :=
  match bot.grid with
  | some g => g.name
  | none =>
    if jsTruthyNat bot.grid_id then "ID: " ++ natDec (bot.grid_id.getD 0)
    else "N/A"

/-- Per-bot block of the bot list. -/
def formatBot (bot : Bot) : String :=
  "- ID: " ++ natDec bot.id ++ "\n  Name: " ++ bot.name ++ "\n  Status: " ++
    (if bot.is_running then "RUNNING (PID: " ++ jsIntOrNull bot.pid ++ ")"
      else "STOPPED") ++
    "\n  Exchange: " ++ botExchangeInfo bot ++ "\n  Symbol: " ++
    botSymbolInfo bot ++ "\n  Market Type: " ++ bot.market_type ++
    "\n  Grid Mode: " ++ labelOr gridModeLabels bot.grid_mode ++
    "\n  Grid: " ++ botGridInfo bot ++ "\n  Long Mode: " ++
    labelOr botModeLabels bot.lm ++ " (WE: " ++ jsNumRepr bot.lwe ++
    ")\n  Short Mode: " ++ labelOr botModeLabels bot.sm ++ " (WE: " ++
    jsNumRepr bot.swe ++ ")\n  Leverage: " ++ jsNumRepr bot.leverage ++
    "x\n  Created: " ++ bot.created_at

/-- Detailed bot rendering of the get-bot tool. -/
def formatBotDetailed (bot : Bot) : String :=
  "Bot Details:\n- ID: " ++ natDec bot.id ++ "\n- Name: " ++ bot.name ++
    "\n- Status: " ++ (if bot.is_running then "RUNNING" else "STOPPED") ++
    "\n- PID: " ++ jsOrInt bot.pid "N/A" ++ "\n- Started At: " ++
    jsOrStr bot.started_at "N/A" ++ "\n- Stopped At: " ++
    jsOrStr bot.stopped_at "N/A" ++ "\n\nConfiguration:\n- Exchange: " ++
    botExchangeInfo bot ++ "\n- Symbol: " ++ botSymbolInfoDetailed bot ++
    "\n- Market Type: " ++ bot.market_type ++ "\n- Grid Mode: " ++
    labelOr gridModeLabels bot.grid_mode ++ "\n- Grid: " ++ botGridInfo bot ++
    "\n- Leverage: " ++ jsNumRepr bot.leverage ++ "x\n- Assigned Balance: " ++
    (if 0 < bot.assigned_balance.num then jsNumRepr bot.assigned_balance
      else "No limit") ++
    "\n\nTrading Modes:\n- Long Mode: " ++ labelOr botModeLabels bot.lm ++
    "\n- Long Wallet Exposure: " ++ jsNumRepr bot.lwe ++ "\n- Short Mode: " ++
    labelOr botModeLabels bot.sm ++ "\n- Short Wallet Exposure: " ++
    jsNumRepr bot.swe ++ "\n\nOptions:\n- Order History Mode: " ++
    (if bot.oh_mode then "Enabled" else "Disabled") ++ "\n- Show Logs: " ++
    (if bot.show_logs then "Yes" else "No") ++ "\n- On Trend: " ++
    (if bot.is_on_trend then "Yes" else "No") ++ "\n- On Routines: " ++
    (if bot.is_on_routines then "Yes" else "No") ++
    "\n\nMetadata:\n- User ID: " ++ natDec bot.user_id ++ "\n- Created: " ++
    bot.created_at ++ "\n- Updated: " ++ bot.updated_at

/-- Success rendering of the bot-parameters tool: symbols are grouped by
vendor through an object, then rendered in property enumeration order
with at most ten symbols per vendor shown. -/
def getBotParametersText (p : BotParameters) : String :=
  let grids := if p.grids.length > 0 then
      String.intercalate "\n" (p.grids.map (fun g =>
        "  - ID: " ++ natDec g.id ++ ", Name: " ++ g.name ++ " (User: " ++
          natDec g.user_id ++ ")"))
    else "  No custom grids available"
  let symbolsList := String.intercalate "\n"
    ((jsEntries (buildGroups (fun s => s.exchange) p.symbols [])).map
      (fun kv =>
        "  " ++ kv.1 ++ ":\n" ++
          String.intercalate "\n" ((kv.2.take 10).map (fun s =>
            "    - ID: " ++ natDec s.id ++ ", " ++ s.nice_name)) ++
          (if kv.2.length > 10 then
            " ... and " ++ natDec (kv.2.length - 10) ++ " more" else "")))
  "Bot Parameters:\n\nBot Modes:\n" ++ kvLines (jsEntries p.bot_modes) ++
    "\n\nGrid Modes:\n" ++ kvLines (jsEntries p.grid_modes) ++
    "\n\nMarket Types:\n" ++ kvLines (jsEntries p.market_types) ++
    "\n\nAvailable Grids:\n" ++ grids ++
    "\n\nAvailable Symbols (by exchange):\n" ++ symbolsList ++
    "\n\nRequired Fields: " ++ String.intercalate ", " p.fields.required ++
    "\nOptional Fields: " ++ String.intercalate ", " p.fields.optional ++
    "\n\nNotes:\n" ++ kvLines (jsEntries p.fields.notes)

def getBotParameters (r : CallResult (SingleResponse BotParameters)) :
    List ApiRequest × CallResult String :=
  ([KripttyApiClient.getBotParameters],
    match r with
    | Except.ok resp => Except.ok (getBotParametersText resp.data)
    | Except.error (ReqError.api e) =>
      Except.ok ("Error fetching bot parameters: " ++ e.message)
    | Except.error (ReqError.transport m) =>
      Except.error (ReqError.transport m))

/-- Success rendering of the bot list. -/
def listBotsText (user_id exchange_id : Option Nat) (bots : List Bot) :
    String :=
  if bots.length = 0 then
    "No bots found for " ++
      (if jsTruthyNat user_id then "user " ++ natDec (user_id.getD 0)
        else "exchange " ++ natDec (exchange_id.getD 0)) ++ "."
  else
    "Bots for " ++
      (if jsTruthyNat user_id then "User " ++ natDec (user_id.getD 0)
        else "Exchange " ++ natDec (exchange_id.getD 0)) ++
      " (Total: " ++ natDec bots.length ++ ", Running: " ++
      natDec (bots.filter (fun b => b.is_running)).length ++ "):\n\n" ++
      String.intercalate "\n\n" (bots.map formatBot)

/-- The bot list handler: when both filters are falsy a local validation
text is returned before any client interaction; otherwise exactly one
list request is issued. -/
def listBots (user_id exchange_id : Option Nat)
    (r : CallResult (SingleResponse (List Bot))) :
    List ApiRequest × CallResult String :=
  if !jsTruthyNat user_id && !jsTruthyNat exchange_id then
    ([], Except.ok "Error: Either user_id or exchange_id is required.")
  else
    ([KripttyApiClient.listBots user_id exchange_id],
      match r with
      | Except.ok resp => Except.ok (listBotsText user_id exchange_id resp.data)
      | Except.error (ReqError.api e) =>
        Except.ok ("Error fetching bots: " ++ e.message)
      | Except.error (ReqError.transport m) =>
        Except.error (ReqError.transport m))

def getBot (id : Nat) (r : CallResult (SingleResponse Bot)) :
    List ApiRequest × CallResult String :=
  ([KripttyApiClient.getBot id],
    match r with
    | Except.ok resp => Except.ok (formatBotDetailed resp.data)
    | Except.error (ReqError.api e) =>
      if e.status = 404 then
        Except.ok ("Bot with ID " ++ natDec id ++ " not found.")
      else Except.ok ("Error fetching bot: " ++ e.message)
    | Except.error (ReqError.transport m) =>
      Except.error (ReqError.transport m))

/-- Success rendering of the create-bot tool. -/
def createBotText (bot : Bot) : String :=
  "Bot created successfully:\n- ID: " ++ natDec bot.id ++ "\n- Name: " ++
    bot.name ++ "\n- Symbol: " ++
    (match bot.symbol with
      | some s => if s.nice_name = "" then natDec bot.symbol_id else s.nice_name
      | none => natDec bot.symbol_id) ++
    "\n- Grid Mode: " ++ labelOr gridModeLabels bot.grid_mode ++
    "\n- Long: " ++ labelOr botModeLabels bot.lm ++ " (WE: " ++
    jsNumRepr bot.lwe ++ ")\n- Short: " ++ labelOr botModeLabels bot.sm ++
    " (WE: " ++ jsNumRepr bot.swe ++
    ")\n\nNote: Bot is created in STOPPED state. Use start_bot to start it."

def createBot (p : CreateBotParams) (r : CallResult (SingleResponse Bot)) :
    List ApiRequest × CallResult String :=
  ([KripttyApiClient.createBot p],
    match r with
    | Except.ok resp => Except.ok (createBotText resp.data)
    | Except.error (ReqError.api e) =>
      Except.ok ("Error creating bot: " ++ e.message)
    | Except.error (ReqError.transport m) =>
      Except.error (ReqError.transport m))

/-- The sparse bot update body: only supplied fields are inserted, in the
source field order; an explicitly null grid_id is inserted as a JSON
null. -/
def updateBotBody (p : UpdateBotParams) : JBody :=
  optEntry "name" (p.name.map (fun v => JVal.prim (JPrim.str v)))
  ++ optEntry "symbol_id" (p.symbol_id.map (fun v => JVal.prim (JPrim.num v)))
  ++ optEntry "market_type" (p.market_type.map (fun v => JVal.prim (JPrim.str v)))
  ++ optEntry "grid_mode" (p.grid_mode.map (fun v => JVal.prim (JPrim.str v)))
  ++ optEntry "grid_id" (p.grid_id.map (fun g =>
      match g with
      | none => JVal.prim JPrim.null
      | some n => JVal.prim (JPrim.num n)))
  ++ optEntry "lm" (p.lm.map (fun v => JVal.prim (JPrim.str v)))
  ++ optEntry "lwe" (p.lwe.map (fun v => JVal.prim (JPrim.num v)))
  ++ optEntry "sm" (p.sm.map (fun v => JVal.prim (JPrim.str v)))
  ++ optEntry "swe" (p.swe.map (fun v => JVal.prim (JPrim.num v)))
  ++ optEntry "leverage" (p.leverage.map (fun v => JVal.prim (JPrim.num v)))
  ++ optEntry "assigned_balance"
    (p.assigned_balance.map (fun v => JVal.prim (JPrim.num v)))
  ++ optEntry "oh_mode" (p.oh_mode.map (fun v => JVal.prim (JPrim.bool v)))
  ++ optEntry "show_logs" (p.show_logs.map (fun v => JVal.prim (JPrim.bool v)))
  ++ optEntry "is_on_trend" (p.is_on_trend.map (fun v => JVal.prim (JPrim.bool v)))
  ++ optEntry "is_on_routines"
    (p.is_on_routines.map (fun v => JVal.prim (JPrim.bool v)))

/-- Success rendering of the update-bot tool. -/
def updateBotText (bot : Bot) : String :=
  "Bot updated successfully:\n- ID: " ++ natDec bot.id ++ "\n- Name: " ++
    bot.name ++ "\n- Status: " ++
    (if bot.is_running then "RUNNING" else "STOPPED") ++ "\n- Long: " ++
    labelOr botModeLabels bot.lm ++ " (WE: " ++ jsNumRepr bot.lwe ++
    ")\n- Short: " ++ labelOr botModeLabels bot.sm ++ " (WE: " ++
    jsNumRepr bot.swe ++
    ")\n\nNote: If the bot is running, you may need to restart it for some changes to take effect."

def updateBot (p : UpdateBotParams) (r : CallResult (SingleResponse Bot)) :
    List ApiRequest × CallResult String :=
  ([KripttyApiClient.updateBot p.id (updateBotBody p)],
    match r with
    | Except.ok resp => Except.ok (updateBotText resp.data)
    | Except.error (ReqError.api e) =>
      if e.status = 404 then
        Except.ok ("Bot with ID " ++ natDec p.id ++ " not found.")
      else Except.ok ("Error updating bot: " ++ e.message)
    | Except.error (ReqError.transport m) =>
      Except.error (ReqError.transport m))

def startBot (id : Nat) (r : CallResult (MessageResponse Bot)) :
    List ApiRequest × CallResult String :=
  ([KripttyApiClient.startBot id],
    match r with
    | Except.ok resp =>
      Except.ok (resp.message ++ "\n- ID: " ++ natDec resp.data.id ++
        "\n- Name: " ++ resp.data.name ++ "\n- PID: " ++
        jsIntOrNull resp.data.pid ++ "\n- Started At: " ++
        jsStrOrNull resp.data.started_at)
    | Except.error (ReqError.api e) =>
      if e.status = 404 then
        Except.ok ("Bot with ID " ++ natDec id ++ " not found.")
      else if e.status = 422 then
        Except.ok ("Error starting bot: " ++ e.message)
      else Except.ok ("Error starting bot: " ++ e.message)
    | Except.error (ReqError.transport m) =>
      Except.error (ReqError.transport m))

def stopBot (id : Nat) (r : CallResult (MessageResponse Bot)) :
    List ApiRequest × CallResult String :=
  ([KripttyApiClient.stopBot id],
    match r with
    | Except.ok resp =>
      Except.ok (resp.message ++ "\n- ID: " ++ natDec resp.data.id ++
        "\n- Name: " ++ resp.data.name ++ "\n- Status: STOPPED")
    | Except.error (ReqError.api e) =>
      if e.status = 404 then
        Except.ok ("Bot with ID " ++ natDec id ++ " not found.")
      else Except.ok ("Error stopping bot: " ++ e.message)
    | Except.error (ReqError.transport m) =>
      Except.error (ReqError.transport m))

def restartBot (id : Nat) (r : CallResult (MessageResponse Bot)) :
    List ApiRequest × CallResult String :=
  ([KripttyApiClient.restartBot id],
    match r with
    | Except.ok resp =>
      Except.ok (resp.message ++ "\n- ID: " ++ natDec resp.data.id ++
        "\n- Name: " ++ resp.data.name ++ "\n- PID: " ++
        jsIntOrNull resp.data.pid ++ "\n- Started At: " ++
        jsStrOrNull resp.data.started_at)
    | Except.error (ReqError.api e) =>
      if e.status = 404 then
        Except.ok ("Bot with ID " ++ natDec id ++ " not found.")
      else if e.status = 422 then
        Except.ok ("Error restarting bot: " ++ e.message)
      else Except.ok ("Error restarting bot: " ++ e.message)
    | Except.error (ReqError.transport m) =>
      Except.error (ReqError.transport m))

def swapBotWe (id : Nat) (new_trend : String)
    (r : CallResult (MessageResponse Bot)) :
    List ApiRequest × CallResult String :=
  ([KripttyApiClient.swapBotWe id new_trend],
    match r with
    | Except.ok resp =>
      Except.ok (resp.message ++ "\n- ID: " ++ natDec resp.data.id ++
        "\n- Name: " ++ resp.data.name ++ "\n- Long WE: " ++
        jsNumRepr resp.data.lwe ++ "\n- Short WE: " ++
        jsNumRepr resp.data.swe ++
        "\n\nNote: If the bot is running, restart it for changes to take effect.")
    | Except.error (ReqError.api e) =>
      if e.status = 404 then
        Except.ok ("Bot with ID " ++ natDec id ++ " not found.")
      else Except.ok ("Error swapping wallet exposure: " ++ e.message)
    | Except.error (ReqError.transport m) =>
      Except.error (ReqError.transport m))

def simpleSwapBotWe (id : Nat) (r : CallResult (MessageResponse Bot)) :
    List ApiRequest × CallResult String :=
  ([KripttyApiClient.simpleSwapBotWe id],
    match r with
    | Except.ok resp =>
      Except.ok (resp.message ++ "\n- ID: " ++ natDec resp.data.id ++
        "\n- Name: " ++ resp.data.name ++ "\n- Long WE: " ++
        jsNumRepr resp.data.lwe ++ "\n- Short WE: " ++
        jsNumRepr resp.data.swe ++
        "\n\nNote: If the bot is running, restart it for changes to take effect.")
    | Except.error (ReqError.api e) =>
      if e.status = 404 then
        Except.ok ("Bot with ID " ++ natDec id ++ " not found.")
      else Except.ok ("Error swapping wallet exposure: " ++ e.message)
    | Except.error (ReqError.transport m) =>
      Except.error (ReqError.transport m))

def getBotStatus (id : Nat) (r : CallResult (SingleResponse BotStatus)) :
    List ApiRequest × CallResult String :=
  ([KripttyApiClient.getBotStatus id],
    match r with
    | Except.ok resp =>
      Except.ok ("Bot Status:\n- ID: " ++ natDec resp.data.id ++
        "\n- Name: " ++ resp.data.name ++ "\n- Process Running: " ++
        (if resp.data.is_running then "YES" else "NO") ++ "\n- PID: " ++
        jsOrInt resp.data.pid "N/A" ++ "\n- Started At: " ++
        jsOrStr resp.data.started_at "N/A" ++ "\n- Stopped At: " ++
        jsOrStr resp.data.stopped_at "N/A")
    | Except.error (ReqError.api e) =>
      if e.status = 404 then
        Except.ok ("Bot with ID " ++ natDec id ++ " not found.")
      else Except.ok ("Error fetching bot status: " ++ e.message)
    | Except.error (ReqError.transport m) =>
      Except.error (ReqError.transport m))

end Tools

/-! ## Specification-side definitions

Definitions in this section are written from the words of the
specification, for comparison against the source-derived definitions
above. -/

/-- Contiguous occurrence test of a pattern inside a character list. -/
def listContains (pat : List Char) : List Char → Bool
  | [] => pat.isEmpty
  | c :: t => pat.isPrefixOf (c :: t) || listContains pat t

/-- Boolean substring test used to state rendering facts. -/
def strContains (hay pat : String) : Bool :=
  listContains pat.data hay.data

/-- Grouping following the specification: the first-seen keys in order,
each paired with the records carrying that key. -/
def specGroups {α : Type} (key : α → String) (records : List α) :
    List (String × List α) :=
  (firstSeen (records.map key)).map
    (fun k => (k, records.filter (fun r => key r = k)))

/-- The period-dependent grouping key as the specification words it: the
literal date string for daily, month name and year for monthly, the
year rendering for yearly. -/
def specKey (period : String) (r : PnlRecord) : String :=
  if period = "daily" then r.date.getD ""
  else if period = "monthly" then
    (r.month_name.getD "") ++ " " ++ natDec (r.year.getD 0)
  else natDec (r.year.getD 0)

/-- The pnl statistics rendering as the specification describes it:
groups in first-seen key order over the input record sequence, each
group rendered with its subtotal and detail lines. -/
def specPnlStatsText (exchange_id : Nat) (stats : PnlStatsResponse) :
    String :=
  "P&L Statistics for Exchange " ++ natDec exchange_id ++ " (" ++
    stats.period ++ "):\n\n" ++
    String.intercalate "\n\n"
      ((specGroups (specKey stats.period) stats.records).map
        Tools.pnlGroupBlock) ++
    "\n\nGlobal PnL (All Time): " ++
    jsSignedPnl (parseDec stats.global_pnl)

/-! ## Claim theorems -/

theorem exists_ok_ite {ε : Type} {c : Prop} [Decidable c]
    {x y : Except ε String} (hx : ∃ s, x = Except.ok s)
    (hy : ∃ s, y = Except.ok s) :
    ∃ s, (if c then x else y) = Except.ok s := by
  split
  · exact hx
  · exact hy

theorem append_ne_empty_left (s t : String) (h : s ≠ "") : s ++ t ≠ "" := by
  intro he
  apply h
  have hd := congrArg String.data he
  rw [String.data_append] at hd
  have h2 := List.append_eq_nil.mp hd
  cases s with
  | mk l =>
    cases h2.1
    rfl

/-- C2: the gateway request function returns the decoded JSON payload
exactly when the HTTP status lies in the 2xx range; any other status
raises an ApiError carrying the status, the reason phrase and a message
embedding status, reason phrase and the raw body text. -/
theorem c2_gateway_request {α : Type} (r : HttpResponse α) (v : α)
    (hv : r.jsonBody = some v) :
    (gatewayRequest r = Except.ok v ↔ (200 ≤ r.status ∧ r.status ≤ 299)) ∧
    (¬(200 ≤ r.status ∧ r.status ≤ 299) →
      gatewayRequest r = Except.error (ReqError.api
        (ApiError.mk r.status r.statusText
          ("API request failed: " ++ natDec r.status ++ " " ++ r.statusText ++
            ". " ++ r.bodyText)))) := by
  have hmsg : ("API request failed: " ++ natDec r.status ++ " " ++
      r.statusText ++ ". " ++ r.bodyText) ≠ "" := by
    apply append_ne_empty_left
    apply append_ne_empty_left
    apply append_ne_empty_left
    apply append_ne_empty_left
    apply append_ne_empty_left
    decide
  by_cases h : 200 ≤ r.status ∧ r.status ≤ 299
  · have hok : r.ok = true := by
      simp [HttpResponse.ok, h.1, h.2]
    constructor
    · rw [gatewayRequest, if_pos hok, hv]
      simp [h]
    · intro hc
      exact absurd h hc
  · have hok : r.ok = false := by
      simp only [HttpResponse.ok, Bool.and_eq_false_iff, decide_eq_false_iff_not]
      omega
    constructor
    · rw [gatewayRequest, if_neg (by simp [hok])]
      constructor
      · intro hcontra
        exact Except.noConfusion hcontra
      · intro hc
        exact absurd hc h
    · intro _
      rw [gatewayRequest, if_neg (by simp [hok])]
      simp only [ApiError.make, jsOrStr, if_neg hmsg]

/-- C2 witness: a concrete 404 response with body text produces exactly
the structured error, and a concrete 200 response returns its payload. -/
theorem c2_gateway_request_witness :
    gatewayRequest (HttpResponse.mk 404 "Not Found" "gone" (some (5 : Nat))) =
      Except.error (ReqError.api (ApiError.mk 404 "Not Found"
        ("API request failed: " ++ natDec 404 ++ " " ++ "Not Found" ++
          ". " ++ "gone"))) ∧
    gatewayRequest (HttpResponse.mk 200 "OK" "" (some (5 : Nat))) =
      Except.ok 5 :=
  ⟨(c2_gateway_request _ 5 rfl).2 (by decide),
    (c2_gateway_request (HttpResponse.mk 200 "OK" "" (some (5 : Nat))) 5
      rfl).1.mpr (by decide)⟩

/-- C1: every single-entity operation addressed by an id maps a
structured 404 error to exactly the entity-specific not-found template
with the literal parameter id substituted. -/
theorem c1_not_found_mapping (e : ApiError) (he : e.status = 404)
    (id : Nat) (rid : String) (email name password : String) (adm : Bool)
    (role : Int) (rp : UpdateRoutineParams) (ep : UpdateExchangeParams)
    (bp : UpdateBotParams) (tr : String) :
    (Tools.getUser id (apiFail e)).2 =
      Except.ok ("User with ID " ++ natDec id ++ " not found.") ∧
    (Tools.updateUserEmail id email (apiFail e)).2 =
      Except.ok ("User with ID " ++ natDec id ++ " not found.") ∧
    (Tools.updateUserName id name (apiFail e)).2 =
      Except.ok ("User with ID " ++ natDec id ++ " not found.") ∧
    (Tools.updateUserPassword id password (apiFail e)).2 =
      Except.ok ("User with ID " ++ natDec id ++ " not found.") ∧
    (Tools.updateUserAdmin id adm (apiFail e)).2 =
      Except.ok ("User with ID " ++ natDec id ++ " not found.") ∧
    (Tools.updateUserRole id role (apiFail e)).2 =
      Except.ok ("User with ID " ++ natDec id ++ " not found.") ∧
    (Tools.getRoutine rid (apiFail e)).2 =
      Except.ok ("Routine with ID " ++ rid ++ " not found.") ∧
    (Tools.updateRoutine rp (apiFail e)).2 =
      Except.ok ("Routine with ID " ++ rp.id ++ " not found.") ∧
    (Tools.runRoutine rid (apiFail e)).2 =
      Except.ok ("Routine with ID " ++ rid ++ " not found.") ∧
    (Tools.getExchange id (apiFail e)).2 =
      Except.ok ("Exchange with ID " ++ natDec id ++ " not found.") ∧
    (Tools.updateExchange ep (apiFail e)).2 =
      Except.ok ("Exchange with ID " ++ natDec ep.id ++ " not found.") ∧
    (Tools.refreshExchange id (apiFail e)).2 =
      Except.ok ("Exchange with ID " ++ natDec id ++ " not found.") ∧
    (Tools.getBot id (apiFail e)).2 =
      Except.ok ("Bot with ID " ++ natDec id ++ " not found.") ∧
    (Tools.updateBot bp (apiFail e)).2 =
      Except.ok ("Bot with ID " ++ natDec bp.id ++ " not found.") ∧
    (Tools.startBot id (apiFail e)).2 =
      Except.ok ("Bot with ID " ++ natDec id ++ " not found.") ∧
    (Tools.stopBot id (apiFail e)).2 =
      Except.ok ("Bot with ID " ++ natDec id ++ " not found.") ∧
    (Tools.restartBot id (apiFail e)).2 =
      Except.ok ("Bot with ID " ++ natDec id ++ " not found.") ∧
    (Tools.swapBotWe id tr (apiFail e)).2 =
      Except.ok ("Bot with ID " ++ natDec id ++ " not found.") ∧
    (Tools.simpleSwapBotWe id (apiFail e)).2 =
      Except.ok ("Bot with ID " ++ natDec id ++ " not found.") ∧
    (Tools.getBotStatus id (apiFail e)).2 =
      Except.ok ("Bot with ID " ++ natDec id ++ " not found.") ∧
    (Tools.getTrade id (apiFail e)).2 =
      Except.ok ("Trade with ID " ++ natDec id ++ " not found.") := by
  repeat' apply And.intro
  all_goals
    simp [Tools.getUser, Tools.updateUserEmail, Tools.updateUserName,
      Tools.updateUserPassword, Tools.updateUserAdmin, Tools.updateUserRole,
      Tools.getRoutine, Tools.updateRoutine, Tools.runRoutine,
      Tools.getExchange, Tools.updateExchange, Tools.refreshExchange,
      Tools.getBot, Tools.updateBot, Tools.startBot, Tools.stopBot,
      Tools.restartBot, Tools.swapBotWe, Tools.simpleSwapBotWe,
      Tools.getBotStatus, Tools.getTrade, apiFail, he]

/-- C1 witness: a concrete 404 error at concrete ids yields the literal
not-found texts for a representative sample of the operations. -/
theorem c1_not_found_mapping_witness :
    (Tools.getUser 7 (apiFail (ApiError.mk 404 "Not Found" "m"))).2 =
      Except.ok "User with ID 7 not found." ∧
    (Tools.getBot 999 (apiFail (ApiError.mk 404 "Not Found" "m"))).2 =
      Except.ok "Bot with ID 999 not found." ∧
    (Tools.getTrade 3 (apiFail (ApiError.mk 404 "Not Found" "m"))).2 =
      Except.ok "Trade with ID 3 not found." := by
  have h7 := c1_not_found_mapping (ApiError.mk 404 "Not Found" "m") rfl 7
    "r" "e" "n" "p" true 1 (UpdateRoutineParams.mk "r" none none none none
      none none none) (UpdateExchangeParams.mk 1 none none none none none
      none none) (UpdateBotParams.mk 1 none none none none none none none
      none none none none none none none none) "LONG"
  have h999 := c1_not_found_mapping (ApiError.mk 404 "Not Found" "m") rfl 999
    "r" "e" "n" "p" true 1 (UpdateRoutineParams.mk "r" none none none none
      none none none) (UpdateExchangeParams.mk 1 none none none none none
      none none) (UpdateBotParams.mk 1 none none none none none none none
      none none none none none none none none) "LONG"
  have h3 := c1_not_found_mapping (ApiError.mk 404 "Not Found" "m") rfl 3
    "r" "e" "n" "p" true 1 (UpdateRoutineParams.mk "r" none none none none
      none none none) (UpdateExchangeParams.mk 1 none none none none none
      none none) (UpdateBotParams.mk 1 none none none none none none none
      none none none none none none none none) "LONG"
  refine ⟨?_, ?_, ?_⟩
  · have := h7.1
    simpa [natDec, natDecChars, natDecAux] using this
  · have := h999.2.2.2.2.2.2.2.2.2.2.2.2.1
    simpa [natDec, natDecChars, natDecAux] using this
  · have := h3.2.2.2.2.2.2.2.2.2.2.2.2.2.2.2.2.2.2.2.2
    simpa [natDec, natDecChars, natDecAux] using this


/-- C3: for every tool handler, a structured HTTP error from the gateway
call is always converted into returned text, and any other error is
re-raised unchanged; the bot list propagates a transport error whenever
its local gate passed and the call was actually made. -/
theorem c3_error_classification (e : ApiError) (m : String)
    (id : Nat) (rid : String) (email name password : String) (adm : Bool)
    (role : Int) (cup : CreateUserParams) (crp : CreateRoutineParams)
    (rp : UpdateRoutineParams) (cep : CreateExchangeParams)
    (ep : UpdateExchangeParams) (cbp : CreateBotParams)
    (bp : UpdateBotParams) (ltp : ListTradesParams) (psp : PnlStatsParams)
    (tr : String) (u ex : Option Nat) :
    ((∃ s, (Tools.listUsers (apiFail e)).2 = Except.ok s) ∧
      (Tools.listUsers (transportFail m)).2 =
        Except.error (ReqError.transport m)) ∧
    ((∃ s, (Tools.getUser id (apiFail e)).2 = Except.ok s) ∧
      (Tools.getUser id (transportFail m)).2 =
        Except.error (ReqError.transport m)) ∧
    ((∃ s, (Tools.createUser cup (apiFail e)).2 = Except.ok s) ∧
      (Tools.createUser cup (transportFail m)).2 =
        Except.error (ReqError.transport m)) ∧
    ((∃ s, (Tools.updateUserEmail id email (apiFail e)).2 = Except.ok s) ∧
      (Tools.updateUserEmail id email (transportFail m)).2 =
        Except.error (ReqError.transport m)) ∧
    ((∃ s, (Tools.updateUserName id name (apiFail e)).2 = Except.ok s) ∧
      (Tools.updateUserName id name (transportFail m)).2 =
        Except.error (ReqError.transport m)) ∧
    ((∃ s, (Tools.updateUserPassword id password (apiFail e)).2 = Except.ok s) ∧
      (Tools.updateUserPassword id password (transportFail m)).2 =
        Except.error (ReqError.transport m)) ∧
    ((∃ s, (Tools.updateUserAdmin id adm (apiFail e)).2 = Except.ok s) ∧
      (Tools.updateUserAdmin id adm (transportFail m)).2 =
        Except.error (ReqError.transport m)) ∧
    ((∃ s, (Tools.updateUserRole id role (apiFail e)).2 = Except.ok s) ∧
      (Tools.updateUserRole id role (transportFail m)).2 =
        Except.error (ReqError.transport m)) ∧
    ((∃ s, (Tools.listTrades ltp (apiFail e)).2 = Except.ok s) ∧
      (Tools.listTrades ltp (transportFail m)).2 =
        Except.error (ReqError.transport m)) ∧
    ((∃ s, (Tools.getTrade id (apiFail e)).2 = Except.ok s) ∧
      (Tools.getTrade id (transportFail m)).2 =
        Except.error (ReqError.transport m)) ∧
    ((∃ s, (Tools.listTradeSymbols id (apiFail e)).2 = Except.ok s) ∧
      (Tools.listTradeSymbols id (transportFail m)).2 =
        Except.error (ReqError.transport m)) ∧
    ((∃ s, (Tools.getPnlStats psp (apiFail e)).2 = Except.ok s) ∧
      (Tools.getPnlStats psp (transportFail m)).2 =
        Except.error (ReqError.transport m)) ∧
    ((∃ s, (Tools.getRoutineParameters (apiFail e)).2 = Except.ok s) ∧
      (Tools.getRoutineParameters (transportFail m)).2 =
        Except.error (ReqError.transport m)) ∧
    ((∃ s, (Tools.listRoutines (apiFail e)).2 = Except.ok s) ∧
      (Tools.listRoutines (transportFail m)).2 =
        Except.error (ReqError.transport m)) ∧
    ((∃ s, (Tools.getRoutine rid (apiFail e)).2 = Except.ok s) ∧
      (Tools.getRoutine rid (transportFail m)).2 =
        Except.error (ReqError.transport m)) ∧
    ((∃ s, (Tools.createRoutine crp (apiFail e)).2 = Except.ok s) ∧
      (Tools.createRoutine crp (transportFail m)).2 =
        Except.error (ReqError.transport m)) ∧
    ((∃ s, (Tools.updateRoutine rp (apiFail e)).2 = Except.ok s) ∧
      (Tools.updateRoutine rp (transportFail m)).2 =
        Except.error (ReqError.transport m)) ∧
    ((∃ s, (Tools.runRoutine rid (apiFail e)).2 = Except.ok s) ∧
      (Tools.runRoutine rid (transportFail m)).2 =
        Except.error (ReqError.transport m)) ∧
    ((∃ s, (Tools.getExchangeParameters (apiFail e)).2 = Except.ok s) ∧
      (Tools.getExchangeParameters (transportFail m)).2 =
        Except.error (ReqError.transport m)) ∧
    ((∃ s, (Tools.listExchanges id (apiFail e)).2 = Except.ok s) ∧
      (Tools.listExchanges id (transportFail m)).2 =
        Except.error (ReqError.transport m)) ∧
    ((∃ s, (Tools.getExchange id (apiFail e)).2 = Except.ok s) ∧
      (Tools.getExchange id (transportFail m)).2 =
        Except.error (ReqError.transport m)) ∧
    ((∃ s, (Tools.createExchange cep (apiFail e)).2 = Except.ok s) ∧
      (Tools.createExchange cep (transportFail m)).2 =
        Except.error (ReqError.transport m)) ∧
    ((∃ s, (Tools.updateExchange ep (apiFail e)).2 = Except.ok s) ∧
      (Tools.updateExchange ep (transportFail m)).2 =
        Except.error (ReqError.transport m)) ∧
    ((∃ s, (Tools.refreshExchange id (apiFail e)).2 = Except.ok s) ∧
      (Tools.refreshExchange id (transportFail m)).2 =
        Except.error (ReqError.transport m)) ∧
    ((∃ s, (Tools.getBotParameters (apiFail e)).2 = Except.ok s) ∧
      (Tools.getBotParameters (transportFail m)).2 =
        Except.error (ReqError.transport m)) ∧
    ((∃ s, (Tools.getBot id (apiFail e)).2 = Except.ok s) ∧
      (Tools.getBot id (transportFail m)).2 =
        Except.error (ReqError.transport m)) ∧
    ((∃ s, (Tools.createBot cbp (apiFail e)).2 = Except.ok s) ∧
      (Tools.createBot cbp (transportFail m)).2 =
        Except.error (ReqError.transport m)) ∧
    ((∃ s, (Tools.updateBot bp (apiFail e)).2 = Except.ok s) ∧
      (Tools.updateBot bp (transportFail m)).2 =
        Except.error (ReqError.transport m)) ∧
    ((∃ s, (Tools.startBot id (apiFail e)).2 = Except.ok s) ∧
      (Tools.startBot id (transportFail m)).2 =
        Except.error (ReqError.transport m)) ∧
    ((∃ s, (Tools.stopBot id (apiFail e)).2 = Except.ok s) ∧
      (Tools.stopBot id (transportFail m)).2 =
        Except.error (ReqError.transport m)) ∧
    ((∃ s, (Tools.restartBot id (apiFail e)).2 = Except.ok s) ∧
      (Tools.restartBot id (transportFail m)).2 =
        Except.error (ReqError.transport m)) ∧
    ((∃ s, (Tools.swapBotWe id tr (apiFail e)).2 = Except.ok s) ∧
      (Tools.swapBotWe id tr (transportFail m)).2 =
        Except.error (ReqError.transport m)) ∧
    ((∃ s, (Tools.simpleSwapBotWe id (apiFail e)).2 = Except.ok s) ∧
      (Tools.simpleSwapBotWe id (transportFail m)).2 =
        Except.error (ReqError.transport m)) ∧
    ((∃ s, (Tools.getBotStatus id (apiFail e)).2 = Except.ok s) ∧
      (Tools.getBotStatus id (transportFail m)).2 =
        Except.error (ReqError.transport m)) ∧
    ((∃ s, (Tools.listBots u ex (apiFail e)).2 = Except.ok s) ∧
      ((jsTruthyNat u = true ∨ jsTruthyNat ex = true) →
        (Tools.listBots u ex (transportFail m)).2 =
          Except.error (ReqError.transport m))) := by
  repeat' apply And.intro
  all_goals try (
    intro h
    rcases h with h | h <;> simp [Tools.listBots, transportFail, h])
  all_goals try (
    rcases hg : (!jsTruthyNat u && !jsTruthyNat ex) with _ | _
    · refine ⟨"Error fetching bots: " ++ e.message, ?_⟩
      simp [Tools.listBots, hg, apiFail]
    · refine ⟨"Error: Either user_id or exchange_id is required.", ?_⟩
      simp [Tools.listBots, hg, apiFail])
  all_goals try (
    simp [Tools.listUsers, Tools.getUser, Tools.createUser,
      Tools.updateUserEmail, Tools.updateUserName, Tools.updateUserPassword,
      Tools.updateUserAdmin, Tools.updateUserRole, Tools.listTrades,
      Tools.getTrade, Tools.listTradeSymbols, Tools.getPnlStats,
      Tools.getRoutineParameters, Tools.listRoutines, Tools.getRoutine,
      Tools.createRoutine, Tools.updateRoutine, Tools.runRoutine,
      Tools.getExchangeParameters, Tools.listExchanges, Tools.getExchange,
      Tools.createExchange, Tools.updateExchange, Tools.refreshExchange,
      Tools.getBotParameters, Tools.getBot, Tools.createBot, Tools.updateBot,
      Tools.startBot, Tools.stopBot, Tools.restartBot, Tools.swapBotWe,
      Tools.simpleSwapBotWe, Tools.getBotStatus, apiFail, transportFail]
    done)
  all_goals (
    simp only [Tools.getUser, Tools.updateUserEmail, Tools.updateUserName,
      Tools.updateUserPassword, Tools.updateUserAdmin, Tools.updateUserRole,
      Tools.getTrade, Tools.getRoutine, Tools.updateRoutine,
      Tools.runRoutine, Tools.getExchange, Tools.updateExchange,
      Tools.refreshExchange, Tools.getBot, Tools.updateBot, Tools.startBot,
      Tools.stopBot, Tools.restartBot, Tools.swapBotWe,
      Tools.simpleSwapBotWe, Tools.getBotStatus, apiFail]
    repeat first | exact ⟨_, rfl⟩ | apply exists_ok_ite)

/-- C3 witness: at a concrete structured error and a concrete transport
message, a representative handler returns text for the former and
re-raises the latter, and the gated bot list with a present filter
propagates the transport error. -/
theorem c3_error_classification_witness :
    (∃ s, (Tools.getUser 7 (apiFail (ApiError.mk 500 "Server Error" "boom"))).2
      = Except.ok s) ∧
    (Tools.listBots (some 7) none (transportFail "fetch failed")).2 =
      Except.error (ReqError.transport "fetch failed") := by
  have h := c3_error_classification (ApiError.mk 500 "Server Error" "boom")
    "fetch failed" 7 "r" "e" "n" "p" true 1
    (CreateUserParams.mk "n" "e" "p" 1 false)
    (CreateRoutineParams.mk 1 "n" "static" 0 "n" 1 "n" 1)
    (UpdateRoutineParams.mk "r" none none none none none none none)
    (CreateExchangeParams.mk 1 "n" "bybit" "1" "k" "s" none false)
    (UpdateExchangeParams.mk 1 none none none none none none none)
    (CreateBotParams.mk "n" 1 1 "futures" "static" none "n" 1 "n" 1 none
      none none none none none)
    (UpdateBotParams.mk 1 none none none none none none none none none
      none none none none none none)
    (ListTradesParams.mk 1 none none none none none none)
    (PnlStatsParams.mk 1 none none none)
    "LONG" (some 7) none
  exact ⟨h.2.1.1, h.2.2.2.2.2.2.2.2.2.2.2.2.2.2.2.2.2.2.2.2.2.2.2.2.2.2.2.2.2.2.2.2.2.2.2
    (Or.inl (by decide))⟩

/-- C4: with both filters absent the bot list performs no gateway call
and returns the local validation text; with a positive filter present it
issues exactly one GET request on the bots list endpoint. -/
theorem c4_listBots_local_gate (u ex : Option Nat)
    (r : CallResult (SingleResponse (List Bot))) :
    ((u = none ∧ ex = none) →
      Tools.listBots u ex r =
        ([], Except.ok "Error: Either user_id or exchange_id is required.")) ∧
    (∀ n : Nat, 0 < n → (u = some n ∨ ex = some n) →
      ((Tools.listBots u ex r).1 = [KripttyApiClient.listBots u ex] ∧
        (KripttyApiClient.listBots u ex).method = "GET" ∧
        ∃ q, (KripttyApiClient.listBots u ex).endpoint = "/bots?" ++ q)) := by
  constructor
  · rintro ⟨hu, hex⟩
    subst hu; subst hex
    rfl
  · intro n hn hor
    have hcond : (!jsTruthyNat u && !jsTruthyNat ex) = false := by
      rcases hor with h | h <;> subst h <;> simp [jsTruthyNat] <;> omega
    refine ⟨by simp [Tools.listBots, hcond], rfl, _, rfl⟩

/-- C4 witness: both gate branches at concrete inputs. -/
theorem c4_listBots_local_gate_witness :
    Tools.listBots none none
        (apiFail (α := SingleResponse (List Bot)) (ApiError.mk 500 "x" "y")) =
      ([], Except.ok "Error: Either user_id or exchange_id is required.") ∧
    (Tools.listBots (some 7) none
        (apiFail (α := SingleResponse (List Bot)) (ApiError.mk 500 "x" "y"))).1 =
      [KripttyApiClient.listBots (some 7) none] :=
  ⟨(c4_listBots_local_gate none none _).1 ⟨rfl, rfl⟩,
    ((c4_listBots_local_gate (some 7) none _).2 7 (by decide) (Or.inl rfl)).1⟩


/-- C8: the run-routine handler issues exactly one POST on the run path
of the routine and renders message, name, triggered_at and triggered_by
on success; the rich client variant carries the target exchange id in
the request body, the variant the handler composes with sends no body. -/
theorem c8_run_routine (id : String) (exchange_id : Nat)
    (resp : MessageResponse Routine) :
    (Tools.runRoutine id (Except.ok resp)).1 =
      [ApiRequest.mk ("/routines/" ++ id ++ "/run") "POST" none] ∧
    KripttyApiClient.runRoutine id exchange_id =
      ApiRequest.mk ("/routines/" ++ id ++ "/run") "POST"
        (some [("exchange_id", JVal.prim (JPrim.num exchange_id))]) ∧
    KripttyApiClientMinimal.runRoutine id =
      ApiRequest.mk ("/routines/" ++ id ++ "/run") "POST" none ∧
    (Tools.runRoutine id (Except.ok resp)).2 =
      Except.ok (resp.message ++ "\n- Routine: " ++ resp.data.name ++
        "\n- Triggered At: " ++ jsStrOrNull resp.data.triggered_at ++
        "\n- Triggered By: " ++ jsStrOrNull resp.data.triggered_by) :=
  ⟨rfl, rfl, rfl, rfl⟩

/-- C9 counterexample: the password update operation, unlike the other
four single-field user updates, does not echo the new value: its
confirmation for user 5 with password secretpass123 is a fixed text that
does not contain the password. -/
theorem c9_single_field_update_cex :
    (Tools.updateUserPassword 5 "secretpass123"
        (Except.ok (SingleResponse.mk (User.mk 5 "Alice" "alice@example.com"
          false 2 none none "2024-01-01" [])))).2 =
      Except.ok "User 5 password updated successfully." ∧
    strContains "User 5 password updated successfully." "secretpass123" =
      false := by
  constructor
  · rfl
  · decide

/-- C9 amended: each single-field user update sends a PATCH on the user
path whose body holds exactly its one field; the email, name, admin and
role confirmations echo the new value from the response, while the
password confirmation echoes only the user id and a fixed text. -/
theorem c9_single_field_update (uid : Nat) (email name password : String)
    (adm : Bool) (role : Int) (resp : SingleResponse User) :
    ((Tools.updateUserEmail uid email (Except.ok resp)).1 =
      [ApiRequest.mk ("/users/" ++ natDec uid) "PATCH"
        (some [("email", JVal.prim (JPrim.str email))])] ∧
      ∃ pre, (Tools.updateUserEmail uid email (Except.ok resp)).2 =
        Except.ok (pre ++ resp.data.email)) ∧
    ((Tools.updateUserName uid name (Except.ok resp)).1 =
      [ApiRequest.mk ("/users/" ++ natDec uid) "PATCH"
        (some [("name", JVal.prim (JPrim.str name))])] ∧
      ∃ pre, (Tools.updateUserName uid name (Except.ok resp)).2 =
        Except.ok (pre ++ resp.data.name)) ∧
    ((Tools.updateUserPassword uid password (Except.ok resp)).1 =
      [ApiRequest.mk ("/users/" ++ natDec uid) "PATCH"
        (some [("password", JVal.prim (JPrim.str password))])] ∧
      (Tools.updateUserPassword uid password (Except.ok resp)).2 =
        Except.ok ("User " ++ natDec uid ++
          " password updated successfully.")) ∧
    ((Tools.updateUserAdmin uid adm (Except.ok resp)).1 =
      [ApiRequest.mk ("/users/" ++ natDec uid) "PATCH"
        (some [("admin", JVal.prim (JPrim.bool adm))])] ∧
      ∃ pre, (Tools.updateUserAdmin uid adm (Except.ok resp)).2 =
        Except.ok (pre ++ (if resp.data.admin then "Yes" else "No"))) ∧
    ((Tools.updateUserRole uid role (Except.ok resp)).1 =
      [ApiRequest.mk ("/users/" ++ natDec uid) "PATCH"
        (some [("role", JVal.prim (JPrim.num role))])] ∧
      ∃ pre, (Tools.updateUserRole uid role (Except.ok resp)).2 =
        Except.ok (pre ++ intDec resp.data.role)) :=
  ⟨⟨rfl, ⟨_, rfl⟩⟩, ⟨rfl, ⟨_, rfl⟩⟩, ⟨rfl, rfl⟩, ⟨rfl, ⟨_, rfl⟩⟩,
    ⟨rfl, ⟨_, rfl⟩⟩⟩

/-- C10: a trade whose closed_pnl is null or the empty string renders a
pnl of exactly the text plus zero point four zeroes in both the list
line and the detailed view. -/
theorem c10_falsy_pnl_as_zero (t : Trade)
    (h : t.closed_pnl = none ∨ t.closed_pnl = some "") :
    Tools.tradePnl t = some 0 ∧
    jsSignedPnl (Tools.tradePnl t) = "+0.0000" ∧
    (∃ a b, Tools.formatTrade t = a ++ ("+0.0000" ++ b)) ∧
    (∃ a b, Tools.formatTradeDetailed t = a ++ ("+0.0000" ++ b)) := by
  have hz : Tools.tradePnl t = some 0 := by
    rcases h with h | h <;> simp [Tools.tradePnl, jsTruthyStr, h]
  have hs : jsSignedPnl (Tools.tradePnl t) = "+0.0000" := by
    rw [hz]; decide
  refine ⟨hz, hs, ⟨Tools.formatTradePre t, " | " ++ t.created_at, ?_⟩,
    ⟨Tools.formatTradeDetailedPre t, Tools.formatTradeDetailedSuf t, ?_⟩⟩
  · rw [Tools.formatTrade, hs]
  · rw [Tools.formatTradeDetailed, hs]

/-- C10 witness: a concrete trade with a null closed_pnl. -/
theorem c10_falsy_pnl_as_zero_witness :
    Tools.tradePnl (Trade.mk 1 2 3 "BTCUSDT" "BTC/USDT" "o1" none "Buy"
        none none "Limit" "Trade" none none none none none none "2024"
        "2024") = some 0 ∧
    jsSignedPnl (Tools.tradePnl (Trade.mk 1 2 3 "BTCUSDT" "BTC/USDT" "o1"
        none "Buy" none none "Limit" "Trade" none none none none none none
        "2024" "2024")) = "+0.0000" :=
  ⟨(c10_falsy_pnl_as_zero _ (Or.inl rfl)).1,
    (c10_falsy_pnl_as_zero _ (Or.inl rfl)).2.1⟩

theorem fixedFrac4_length (m : Nat) : (fixedFrac4 m).length = 4 := rfl

theorem fixedFrac4_digits (m : Nat) :
    (fixedFrac4 m).data.all Char.isDigit = true := by
  simp only [fixedFrac4, List.all_cons, List.all_nil, Bool.and_true,
    Bool.and_eq_true]
  exact ⟨digitChar_isDigit _ (Nat.mod_lt _ (by omega)),
    digitChar_isDigit _ (Nat.mod_lt _ (by omega)),
    digitChar_isDigit _ (Nat.mod_lt _ (by omega)),
    digitChar_isDigit _ (Nat.mod_lt _ (by omega))⟩

/-- C6: every pnl figure is rendered by the shared signed fixed-four
expression: its first character is a plus sign exactly when the value is
nonnegative, a negative value is rendered with only the leading minus
sign, the rendering always ends in a dot followed by exactly four
decimal digits, and each rendering site (trade line, trade detail, pnl
record helper, group subtotal, group detail line, global figure) splices
that expression into its template. -/
theorem c6_signed_pnl_rendering (q : ℚ) (t : Trade) (rec : PnlRecord)
    (per : String) (kv : String × List PnlRecord) (eid : Nat)
    (stats : PnlStatsResponse) :
    ((jsSignedPnlQ q).data.head? = some '+' ↔ 0 ≤ q) ∧
    (q < 0 → jsSignedPnlQ q = "-" ++ toFixed4Pos (Rat.neg q)) ∧
    (∃ ip m, jsSignedPnlQ q = ip ++ "." ++ fixedFrac4 m) ∧
    (∀ m, (fixedFrac4 m).length = 4 ∧
      (fixedFrac4 m).data.all Char.isDigit = true) ∧
    (∃ a b, Tools.formatTrade t = a ++ (jsSignedPnl (Tools.tradePnl t) ++ b)) ∧
    (∃ a b, Tools.formatTradeDetailed t =
      a ++ (jsSignedPnl (Tools.tradePnl t) ++ b)) ∧
    (∃ a b, Tools.formatPnlRecord rec per =
      a ++ (jsSignedPnl (parseDec rec.pnl) ++ b)) ∧
    (∃ a, Tools.pnlRecordLine rec = a ++ jsSignedPnl (parseDec rec.pnl)) ∧
    (∃ a b, Tools.pnlGroupBlock kv = a ++
      (jsSignedPnl (kv.2.foldl (fun s r => jsAdd s (parseDec r.pnl))
        (some 0)) ++ b)) ∧
    (∃ a, Tools.getPnlStatsText eid stats =
      a ++ jsSignedPnl (parseDec stats.global_pnl)) := by
  refine ⟨?_, ?_, ?_, fun m => ⟨fixedFrac4_length m, fixedFrac4_digits m⟩,
    ⟨_, _, rfl⟩, ⟨_, _, rfl⟩, ⟨_, _, rfl⟩, ⟨_, rfl⟩, ⟨_, _, rfl⟩, ?_⟩
  · by_cases h : 0 ≤ q.num
    · have hq : 0 ≤ q := Rat.num_nonneg.mp h
      rw [jsSignedPnlQ, if_pos h]
      simpa [String.data_append] using hq
    · have hq : ¬ (0 ≤ q) := fun hc => h (Rat.num_nonneg.mpr hc)
      rw [jsSignedPnlQ, if_neg h, toFixed4, if_pos (by omega)]
      simpa [String.data_append] using hq
  · intro hneg
    have h : q.num < 0 := Rat.num_neg.mpr hneg
    rw [jsSignedPnlQ, if_neg (by omega), toFixed4, if_pos h]
  · by_cases h : 0 ≤ q.num
    · refine ⟨"+" ++ natDec ((Int.fdiv (2 * q.num * 10000 + q.den)
        (2 * q.den)).toNat / 10000),
        (Int.fdiv (2 * q.num * 10000 + q.den) (2 * q.den)).toNat % 10000, ?_⟩
      rw [jsSignedPnlQ, if_pos h, toFixed4, if_neg (by omega), toFixed4Pos]
      simp [String.append_assoc]
    · refine ⟨"-" ++ natDec ((Int.fdiv (2 * (Rat.neg q).num * 10000 +
        (Rat.neg q).den) (2 * (Rat.neg q).den)).toNat / 10000),
        (Int.fdiv (2 * (Rat.neg q).num * 10000 + (Rat.neg q).den)
          (2 * (Rat.neg q).den)).toNat % 10000, ?_⟩
      rw [jsSignedPnlQ, if_neg h, toFixed4, if_pos (by omega), toFixed4Pos]
      simp [String.append_assoc]
  · rw [Tools.getPnlStatsText]
    split
    · exact ⟨_, rfl⟩
    · exact ⟨_, rfl⟩


theorem lookup_optEntry (k k' : String) (o : Option JVal) :
    List.lookup k (optEntry k' o) = if k = k' then o else none := by
  cases o with
  | none => simp [optEntry]
  | some v =>
    by_cases h : k = k'
    · subst h
      simp [optEntry, List.lookup]
    · have hb : (k == k') = false := beq_eq_false_iff_ne.mpr h
      simp [optEntry, List.lookup, hb, h]

theorem lookup_optPrims (k k' : String) (o : Option JPrim) :
    List.lookup k (optPrims k' o) = if k = k' then o else none := by
  cases o with
  | none => simp [optPrims]
  | some v =>
    by_cases h : k = k'
    · subst h
      simp [optPrims, List.lookup]
    · have hb : (k == k') = false := beq_eq_false_iff_ne.mpr h
      simp [optPrims, List.lookup, hb, h]

theorem mem_optEntry {k : String} {o : Option JVal} {kv : String × JVal}
    (h : kv ∈ optEntry k o) : kv.1 = k := by
  cases o with
  | none => simp [optEntry] at h
  | some v =>
    simp [optEntry] at h
    rw [h]

theorem mem_optPrims {k : String} {o : Option JPrim} {kv : String × JPrim}
    (h : kv ∈ optPrims k o) : kv.1 = k := by
  cases o with
  | none => simp [optPrims] at h
  | some v =>
    simp [optPrims] at h
    rw [h]

theorem optPrims_eq_nil {k : String} {o : Option JPrim} :
    optPrims k o = [] ↔ o = none := by
  cases o <;> simp [optPrims]

theorem keysSub_append {α : Type} {l₁ l₂ : List (String × α)}
    {ks : List String} (h₁ : ∀ kv ∈ l₁, kv.1 ∈ ks)
    (h₂ : ∀ kv ∈ l₂, kv.1 ∈ ks) :
    ∀ kv ∈ l₁ ++ l₂, kv.1 ∈ ks := by
  intro kv h
  rcases List.mem_append.mp h with h | h
  exacts [h₁ kv h, h₂ kv h]

theorem keysSub_optEntry {k : String} {o : Option JVal} {ks : List String}
    (h : k ∈ ks) : ∀ kv ∈ optEntry k o, kv.1 ∈ ks := by
  intro kv hm
  rw [mem_optEntry hm]
  exact h

theorem keysSub_optPrims {k : String} {o : Option JPrim} {ks : List String}
    (h : k ∈ ks) : ∀ kv ∈ optPrims k o, kv.1 ∈ ks := by
  intro kv hm
  rw [mem_optPrims hm]
  exact h

/-- C7: every update operation sends a body holding exactly the supplied
fields: each field is present with its value exactly when the caller
supplied it, no other key occurs, an explicit null for the bot grid_id
is sent as a JSON null, and the routine action sub-object holds exactly
the supplied action fields and is omitted exactly when none was
supplied. -/
theorem c7_sparse_update_bodies (bp : UpdateBotParams)
    (rp : UpdateRoutineParams) (ep : UpdateExchangeParams)
    (hname : rp.name ≠ some "")
    (rb : CallResult (SingleResponse Bot))
    (rr : CallResult (SingleResponse Routine))
    (re : CallResult (SingleResponse ExchangeDetailed)) :
    (Tools.updateBot bp rb).1 = [ApiRequest.mk ("/bots/" ++ natDec bp.id)
      "PATCH" (some (Tools.updateBotBody bp))] ∧
    (Tools.updateRoutine rp rr).1 =
      [ApiRequest.mk ("/routines/" ++ rp.id) "PATCH"
        (some (Tools.updateRoutineBody rp))] ∧
    (Tools.updateExchange ep re).1 =
      [ApiRequest.mk ("/exchanges/" ++ natDec ep.id) "PATCH"
        (some (Tools.updateExchangeBody ep))] ∧
    (Tools.updateBotBody bp).lookup "name" =
      bp.name.map (fun v => JVal.prim (JPrim.str v)) ∧
    (Tools.updateBotBody bp).lookup "symbol_id" =
      bp.symbol_id.map (fun v => JVal.prim (JPrim.num v)) ∧
    (Tools.updateBotBody bp).lookup "market_type" =
      bp.market_type.map (fun v => JVal.prim (JPrim.str v)) ∧
    (Tools.updateBotBody bp).lookup "grid_mode" =
      bp.grid_mode.map (fun v => JVal.prim (JPrim.str v)) ∧
    (Tools.updateBotBody bp).lookup "grid_id" =
      bp.grid_id.map (fun g =>
        match g with
        | none => JVal.prim JPrim.null
        | some n => JVal.prim (JPrim.num n)) ∧
    (Tools.updateBotBody bp).lookup "lm" =
      bp.lm.map (fun v => JVal.prim (JPrim.str v)) ∧
    (Tools.updateBotBody bp).lookup "lwe" =
      bp.lwe.map (fun v => JVal.prim (JPrim.num v)) ∧
    (Tools.updateBotBody bp).lookup "sm" =
      bp.sm.map (fun v => JVal.prim (JPrim.str v)) ∧
    (Tools.updateBotBody bp).lookup "swe" =
      bp.swe.map (fun v => JVal.prim (JPrim.num v)) ∧
    (Tools.updateBotBody bp).lookup "leverage" =
      bp.leverage.map (fun v => JVal.prim (JPrim.num v)) ∧
    (Tools.updateBotBody bp).lookup "assigned_balance" =
      bp.assigned_balance.map (fun v => JVal.prim (JPrim.num v)) ∧
    (Tools.updateBotBody bp).lookup "oh_mode" =
      bp.oh_mode.map (fun v => JVal.prim (JPrim.bool v)) ∧
    (Tools.updateBotBody bp).lookup "show_logs" =
      bp.show_logs.map (fun v => JVal.prim (JPrim.bool v)) ∧
    (Tools.updateBotBody bp).lookup "is_on_trend" =
      bp.is_on_trend.map (fun v => JVal.prim (JPrim.bool v)) ∧
    (Tools.updateBotBody bp).lookup "is_on_routines" =
      bp.is_on_routines.map (fun v => JVal.prim (JPrim.bool v)) ∧
    (∀ kv ∈ Tools.updateBotBody bp, kv.1 ∈ ["name", "symbol_id",
      "market_type", "grid_mode", "grid_id", "lm", "lwe", "sm", "swe",
      "leverage", "assigned_balance", "oh_mode", "show_logs",
      "is_on_trend", "is_on_routines"]) ∧
    (Tools.updateExchangeBody ep).lookup "name" =
      ep.name.map (fun v => JVal.prim (JPrim.str v)) ∧
    (Tools.updateExchangeBody ep).lookup "exchange" =
      ep.exchange.map (fun v => JVal.prim (JPrim.str v)) ∧
    (Tools.updateExchangeBody ep).lookup "risk_mode" =
      ep.risk_mode.map (fun v => JVal.prim (JPrim.str v)) ∧
    (Tools.updateExchangeBody ep).lookup "api_key" =
      ep.api_key.map (fun v => JVal.prim (JPrim.str v)) ∧
    (Tools.updateExchangeBody ep).lookup "api_secret" =
      ep.api_secret.map (fun v => JVal.prim (JPrim.str v)) ∧
    (Tools.updateExchangeBody ep).lookup "api_frase" =
      ep.api_frase.map (fun v => JVal.prim (JPrim.str v)) ∧
    (Tools.updateExchangeBody ep).lookup "is_testnet" =
      ep.is_testnet.map (fun v => JVal.prim (JPrim.bool v)) ∧
    (∀ kv ∈ Tools.updateExchangeBody ep, kv.1 ∈ ["name", "exchange",
      "risk_mode", "api_key", "api_secret", "api_frase", "is_testnet"]) ∧
    (Tools.updateRoutineBody rp).lookup "name" =
      rp.name.map (fun v => JVal.prim (JPrim.str v)) ∧
    ((Tools.updateRoutineBody rp).lookup "action" = none ↔
      (rp.grid_mode = none ∧ rp.grid_id = none ∧ rp.lm = none ∧
        rp.lwe = none ∧ rp.sm = none ∧ rp.swe = none)) ∧
    ((Tools.updateRoutineBody rp).lookup "action" =
        some (JVal.obj (Tools.routineActionUpdates rp)) ∨
      (Tools.updateRoutineBody rp).lookup "action" = none) ∧
    (Tools.routineActionUpdates rp).lookup "grid_mode" =
      rp.grid_mode.map (fun v => JPrim.str v) ∧
    (Tools.routineActionUpdates rp).lookup "grid_id" =
      rp.grid_id.map (fun v => JPrim.num v) ∧
    (Tools.routineActionUpdates rp).lookup "lm" =
      rp.lm.map (fun v => JPrim.str v) ∧
    (Tools.routineActionUpdates rp).lookup "lwe" =
      rp.lwe.map (fun v => JPrim.num v) ∧
    (Tools.routineActionUpdates rp).lookup "sm" =
      rp.sm.map (fun v => JPrim.str v) ∧
    (Tools.routineActionUpdates rp).lookup "swe" =
      rp.swe.map (fun v => JPrim.num v) ∧
    (∀ kv ∈ Tools.routineActionUpdates rp, kv.1 ∈ ["grid_mode", "grid_id",
      "lm", "lwe", "sm", "swe"]) ∧
    (∀ kv ∈ Tools.updateRoutineBody rp, kv.1 ∈ ["name", "action"]) := by
  have hiff : Tools.routineActionUpdates rp = [] ↔
      (rp.grid_mode = none ∧ rp.grid_id = none ∧ rp.lm = none ∧
        rp.lwe = none ∧ rp.sm = none ∧ rp.swe = none) := by
    simp only [Tools.routineActionUpdates, List.append_eq_nil,
      optPrims_eq_nil, Option.map_eq_none', and_assoc]
    cases rp.grid_id <;> simp
  have hact : (Tools.updateRoutineBody rp).lookup "action" =
      if Tools.routineActionUpdates rp = [] then none
      else some (JVal.obj (Tools.routineActionUpdates rp)) := by
    rcases hn : jsTruthyStr rp.name with _ | _ <;>
      by_cases hl : Tools.routineActionUpdates rp = [] <;>
        simp [Tools.updateRoutineBody, hn, hl, List.lookup,
          List.length_pos, List.lookup_append]
  have hnl : (Tools.updateRoutineBody rp).lookup "name" =
      rp.name.map (fun v => JVal.prim (JPrim.str v)) := by
    rcases hn : rp.name with _ | s
    · by_cases hl : Tools.routineActionUpdates rp = [] <;>
        simp [Tools.updateRoutineBody, jsTruthyStr, hn, hl, List.lookup,
          List.length_pos, List.lookup_append]
    · have hs : ¬ (s = "") := fun hc => hname (by rw [hn, hc])
      by_cases hl : Tools.routineActionUpdates rp = [] <;>
        simp [Tools.updateRoutineBody, jsTruthyStr, hn, hs, hl,
          List.lookup, List.length_pos, List.lookup_append]
  have hiffL : (Tools.updateRoutineBody rp).lookup "action" = none ↔
      (rp.grid_mode = none ∧ rp.grid_id = none ∧ rp.lm = none ∧
        rp.lwe = none ∧ rp.sm = none ∧ rp.swe = none) := by
    rw [hact]
    by_cases hl : Tools.routineActionUpdates rp = []
    · rw [if_pos hl]
      exact iff_of_true rfl (hiff.mp hl)
    · rw [if_neg hl]
      constructor
      · intro hc
        exact Option.noConfusion hc
      · intro hc
        exact absurd (hiff.mpr hc) hl
  have hdisj : ((Tools.updateRoutineBody rp).lookup "action" =
        some (JVal.obj (Tools.routineActionUpdates rp)) ∨
      (Tools.updateRoutineBody rp).lookup "action" = none) := by
    rw [hact]
    split
    · exact Or.inr rfl
    · exact Or.inl rfl
  have hbodymem : ∀ kv ∈ Tools.updateRoutineBody rp,
      kv.1 ∈ ["name", "action"] := by
    intro kv h
    rcases hn : jsTruthyStr rp.name with _ | _ <;>
      by_cases hl : Tools.routineActionUpdates rp = [] <;>
        simp [Tools.updateRoutineBody, hn, hl, List.length_pos] at h <;>
        first
          | (rcases h with h | h <;> (rw [h]; simp))
          | (rw [h]; simp)
  refine ⟨rfl, rfl, rfl, ?_, ?_, ?_, ?_, ?_, ?_, ?_, ?_, ?_, ?_, ?_, ?_,
    ?_, ?_, ?_, ?_, ?_, ?_, ?_, ?_, ?_, ?_, ?_, ?_, hnl, hiffL, hdisj,
    ?_, ?_, ?_, ?_, ?_, ?_, ?_, hbodymem⟩
  all_goals try (
    simp [Tools.updateBotBody, Tools.updateExchangeBody,
      Tools.routineActionUpdates, List.lookup_append, lookup_optEntry,
      lookup_optPrims]
    done)
  all_goals (
    simp only [Tools.updateBotBody, Tools.updateExchangeBody,
      Tools.routineActionUpdates]
    repeat
      first
        | apply keysSub_append
        | (apply keysSub_optEntry; decide)
        | (apply keysSub_optPrims; decide))

/-- C7 witness: a bot update supplying only an explicit null grid_id and
an lwe sends exactly those two fields, and a routine update supplying
only a name omits the action object entirely. -/
theorem c7_sparse_update_bodies_witness :
    (Tools.updateBot (UpdateBotParams.mk 3 none none none none (some none)
        none (some 2) none none none none none none none none)
        (apiFail (ApiError.mk 500 "x" "y"))).1 =
      [ApiRequest.mk ("/bots/" ++ natDec 3) "PATCH"
        (some (Tools.updateBotBody (UpdateBotParams.mk 3 none none none
          none (some none) none (some 2) none none none none none none
          none none)))] ∧
    Tools.updateBotBody (UpdateBotParams.mk 3 none none none none
        (some none) none (some 2) none none none none none none none none) =
      [("grid_id", JVal.prim JPrim.null), ("lwe", JVal.prim (JPrim.num 2))] ∧
    Tools.updateRoutineBody (UpdateRoutineParams.mk "r1" (some "New Name")
        none none none none none none) =
      [("name", JVal.prim (JPrim.str "New Name"))] := by
  have h := c7_sparse_update_bodies
    (UpdateBotParams.mk 3 none none none none (some none) none (some 2)
      none none none none none none none none)
    (UpdateRoutineParams.mk "r1" (some "New Name") none none none none
      none none)
    (UpdateExchangeParams.mk 1 none none none none none none none)
    (by decide)
    (apiFail (ApiError.mk 500 "x" "y"))
    (apiFail (ApiError.mk 500 "x" "y"))
    (apiFail (ApiError.mk 500 "x" "y"))
  exact ⟨h.1, by decide, by decide⟩


theorem firstSeen_subset :
    ∀ (n : Nat) (l : List String), l.length ≤ n →
      ∀ x ∈ firstSeen l, x ∈ l := by
  intro n
  induction n with
  | zero =>
    intro l h x hx
    have hl : l = [] := List.length_eq_zero.mp (Nat.le_zero.mp h)
    subst hl
    simp [firstSeen_nil] at hx
  | succ k ihk =>
    intro l h x hx
    cases l with
    | nil => simp [firstSeen_nil] at hx
    | cons a t =>
      rw [firstSeen_cons] at hx
      rcases List.mem_cons.mp hx with h1 | h1
      · exact h1 ▸ List.mem_cons_self _ _
      · have hlen : (t.filter (fun y => y ≠ a)).length ≤ k := by
          have := List.length_filter_le (fun y => y ≠ a) t
          simp at h
          omega
        have := ihk (t.filter (fun y => y ≠ a)) hlen x h1
        exact List.mem_cons_of_mem _ (List.mem_of_mem_filter this)

theorem map_ite_id {α : Type} (t : List (String × List α)) (k : String)
    (v : α) (h : k ∉ t.map Prod.fst) :
    t.map (fun kg => if kg.1 = k then (kg.1, kg.2 ++ [v]) else kg) = t := by
  induction t with
  | nil => rfl
  | cons kg t iht =>
    simp only [List.map_cons, List.mem_cons] at h
    push_neg at h
    simp only [List.map_cons,
      if_neg (show ¬ kg.1 = k from fun hc => h.1 hc.symm),
      iht h.2]

theorem insertGroup_of_not_mem {α : Type} (acc : List (String × List α))
    (k : String) (v : α) (h : k ∉ acc.map Prod.fst) :
    insertGroup acc k v = acc ++ [(k, [v])] := by
  induction acc with
  | nil => rfl
  | cons kg t iht =>
    obtain ⟨k₀, rs₀⟩ := kg
    simp only [List.map_cons, List.mem_cons] at h
    push_neg at h
    simp only [insertGroup,
      if_neg (show ¬ k₀ = k from fun hc => h.1 hc.symm), List.cons_append,
      iht h.2]

theorem insertGroup_of_mem {α : Type} :
    ∀ (acc : List (String × List α)) (k : String) (v : α),
      (acc.map Prod.fst).Nodup → k ∈ acc.map Prod.fst →
      insertGroup acc k v =
        acc.map (fun kg => if kg.1 = k then (kg.1, kg.2 ++ [v]) else kg) := by
  intro acc
  induction acc with
  | nil =>
    intro k v _ h
    simp at h
  | cons kg t iht =>
    intro k v hnd hmem
    obtain ⟨k₀, rs₀⟩ := kg
    rw [List.map_cons] at hnd
    by_cases h : k₀ = k
    · subst h
      have hk : k₀ ∉ t.map Prod.fst := (List.nodup_cons.mp hnd).1
      have hstep : insertGroup ((k₀, rs₀) :: t) k₀ v =
          (k₀, rs₀ ++ [v]) :: t := by
        simp [insertGroup]
      rw [hstep, List.map_cons, if_pos rfl, map_ite_id t k₀ v hk]
    · have hmem' : k ∈ t.map Prod.fst := by
        simp only [List.map_cons, List.mem_cons] at hmem
        rcases hmem with hc | hc
        · exact absurd hc.symm h
        · exact hc
      have hnd' : (t.map Prod.fst).Nodup := (List.nodup_cons.mp hnd).2
      have hstep : insertGroup ((k₀, rs₀) :: t) k v =
          (k₀, rs₀) :: insertGroup t k v := by
        simp [insertGroup, h]
      rw [hstep, List.map_cons, if_neg h, iht k v hnd' hmem']

theorem keys_insertGroup {α : Type} :
    ∀ (acc : List (String × List α)) (k : String) (v : α),
      (insertGroup acc k v).map Prod.fst =
        if k ∈ acc.map Prod.fst then acc.map Prod.fst
        else acc.map Prod.fst ++ [k] := by
  intro acc
  induction acc with
  | nil => intro k v; simp [insertGroup]
  | cons kg t iht =>
    intro k v
    obtain ⟨k₀, rs₀⟩ := kg
    by_cases h : k₀ = k
    · subst h
      simp [insertGroup]
    · by_cases hm : k ∈ t.map Prod.fst <;>
        simp [insertGroup, h, iht, hm, Ne.symm h]

theorem filter_map_key {α : Type} (key : α → String) (p : String → Bool)
    (l : List α) :
    (l.filter (fun r => p (key r))).map key = (l.map key).filter p := by
  induction l with
  | nil => rfl
  | cons a t iht =>
    by_cases h : p (key a) = true <;> simp [List.filter_cons, h, iht]

theorem buildGroups_general {α : Type} (key : α → String) :
    ∀ (rs : List α) (acc : List (String × List α)),
      (acc.map Prod.fst).Nodup →
      buildGroups key rs acc =
        acc.map (fun kg => (kg.1, kg.2 ++ rs.filter (fun r => key r = kg.1)))
        ++ (firstSeen ((rs.filter (fun r =>
              key r ∉ acc.map Prod.fst)).map key)).map
            (fun k => (k, rs.filter (fun r => key r = k))) := by
  intro rs
  induction rs with
  | nil =>
    intro acc _
    simp [buildGroups, firstSeen_nil]
  | cons r rs ih =>
    intro acc hnd
    rw [show buildGroups key (r :: rs) acc =
      buildGroups key rs (insertGroup acc (key r) r) from rfl]
    by_cases hmem : key r ∈ acc.map Prod.fst
    · have hnd' : ((insertGroup acc (key r) r).map Prod.fst).Nodup := by
        rw [keys_insertGroup, if_pos hmem]
        exact hnd
      rw [ih _ hnd']
      congr 1
      · rw [insertGroup_of_mem acc (key r) r hnd hmem, List.map_map]
        apply List.map_congr_left
        intro kg _
        by_cases h : kg.1 = key r
        · simp [Function.comp, h, List.filter_cons, List.append_assoc]
        · simp [Function.comp, h, List.filter_cons,
            (show ¬ (key r = kg.1) from fun hc => h hc.symm)]
      · rw [keys_insertGroup, if_pos hmem]
        have hsame : (r :: rs).filter
            (fun x => key x ∉ acc.map Prod.fst) =
            rs.filter (fun x => key x ∉ acc.map Prod.fst) := by
          simp [List.filter_cons, hmem]
        rw [hsame]
        apply List.map_congr_left
        intro k hk
        have hk2 : k ∈ (rs.filter
            (fun x => key x ∉ acc.map Prod.fst)).map key :=
          firstSeen_subset _ _ (le_refl _) k hk
        rcases List.mem_map.mp hk2 with ⟨x, hx, hxk⟩
        have hxmem := List.of_mem_filter hx
        simp only [decide_not, Bool.not_eq_true', decide_eq_false_iff_not] at hxmem
        have hkne : ¬ (key r = k) := by
          intro hc
          exact hxmem (by rw [hxk, ← hc]; exact hmem)
        simp [List.filter_cons, hkne]
    · have hkeys : (insertGroup acc (key r) r).map Prod.fst =
          acc.map Prod.fst ++ [key r] := by
        rw [keys_insertGroup, if_neg hmem]
      have hnd' : ((insertGroup acc (key r) r).map Prod.fst).Nodup := by
        rw [hkeys]
        refine List.Nodup.append hnd (List.nodup_singleton _) ?_
        simp only [List.disjoint_singleton]
        exact hmem
      rw [ih _ hnd']
      rw [insertGroup_of_not_mem acc (key r) r hmem, List.map_append]
      have hstep : ((r :: rs).filter
          (fun x => key x ∉ acc.map Prod.fst)).map key =
          key r :: (rs.filter (fun x => key x ∉ acc.map Prod.fst)).map key := by
        simp [List.filter_cons, hmem]
      rw [hstep, firstSeen_cons]
      have hfil : ((rs.filter (fun x =>
          key x ∉ acc.map Prod.fst)).map key).filter
            (fun y => y ≠ key r) =
          (rs.filter (fun x =>
            key x ∉ (insertGroup acc (key r) r).map Prod.fst)).map key := by
        rw [← filter_map_key key (fun y => y ≠ key r), List.filter_filter,
          hkeys]
        apply congrArg (List.map key)
        apply List.filter_congr
        intro x _
        simp only [List.mem_append, List.mem_singleton, decide_not]
        by_cases h1 : key x = key r <;>
          by_cases h2 : key x ∈ acc.map Prod.fst <;> simp [h1, h2]
      rw [hfil, List.append_assoc]
      congr 1
      · apply List.map_congr_left
        intro kg hkg
        have hne : ¬ (key r = kg.1) := fun hc =>
          hmem (hc ▸ List.mem_map_of_mem Prod.fst hkg)
        simp [List.filter_cons, hne]
      · have hkeys2 : (acc ++ [(key r, [r])]).map Prod.fst =
            (insertGroup acc (key r) r).map Prod.fst := by
          rw [hkeys, List.map_append]
          rfl
        rw [hkeys2]
        simp only [List.map_cons, List.map_nil, List.singleton_append]
        congr 1
        · simp [List.filter_cons]
        · apply List.map_congr_left
          intro k hk
          have hk2 : k ∈ (rs.filter (fun x =>
              key x ∉ (insertGroup acc (key r) r).map Prod.fst)).map key :=
            firstSeen_subset _ _ (le_refl _) k hk
          rcases List.mem_map.mp hk2 with ⟨x, hx, hxk⟩
          have hxmem := List.of_mem_filter hx
          simp only [decide_not, Bool.not_eq_true',
            decide_eq_false_iff_not] at hxmem
          have hkne : ¬ (key r = k) := by
            intro hc
            apply hxmem
            rw [hkeys, hxk, ← hc]
            simp
          simp [List.filter_cons, hkne]

theorem buildGroups_spec {α : Type} (key : α → String) (rs : List α) :
    buildGroups key rs [] = specGroups key rs := by
  rw [buildGroups_general key rs [] (by simp), specGroups]
  simp

theorem jsEntries_of_no_index {α : Type} (l : List (String × α))
    (h : ∀ kv ∈ l, isArrayIndex kv.1 = false) : jsEntries l = l := by
  have h1 : l.filter (fun kv => isArrayIndex kv.1) = [] :=
    List.filter_eq_nil.mpr (fun kv hkv => by simp [h kv hkv])
  have h2 : l.filter (fun kv => !isArrayIndex kv.1) = l :=
    List.filter_eq_self.mpr (fun kv hkv => by simp [h kv hkv])
  simp [jsEntries, h1, h2]

theorem jsEntries_of_all_index {α : Type} (l : List (String × α))
    (h : ∀ kv ∈ l, isArrayIndex kv.1 = true) :
    jsEntries l =
      List.insertionSort (fun a b => keyNum a.1 ≤ keyNum b.1) l := by
  have h1 : l.filter (fun kv => isArrayIndex kv.1) = l :=
    List.filter_eq_self.mpr (fun kv hkv => by simp [h kv hkv])
  have h2 : l.filter (fun kv => !isArrayIndex kv.1) = [] :=
    List.filter_eq_nil.mpr (fun kv hkv => by simp [h kv hkv])
  simp [jsEntries, h1, h2]

theorem specGroups_keys {α : Type} (key : α → String) (rs : List α) :
    (specGroups key rs).map Prod.fst = firstSeen (rs.map key) := by
  simp only [specGroups, List.map_map]
  exact List.map_id _

theorem mem_specGroups {α : Type} {key : α → String} {rs : List α}
    {kv : String × List α} (h : kv ∈ specGroups key rs) :
    kv = (kv.1, rs.filter (fun r => key r = kv.1)) := by
  rcases List.mem_map.mp h with ⟨k, _, hk⟩
  rw [← hk]

theorem specGroups_congr {α : Type} (k₁ k₂ : α → String) (rs : List α)
    (h : ∀ r ∈ rs, k₁ r = k₂ r) : specGroups k₁ rs = specGroups k₂ rs := by
  unfold specGroups
  rw [List.map_congr_left h]
  apply List.map_congr_left
  intro k _
  congr 1
  apply List.filter_congr
  intro r hr
  rw [h r hr]

theorem isArrayIndex_false_of_nondigit (s : String) (c : Char)
    (hc : c ∈ s.data) (hnd : c.isDigit = false) : isArrayIndex s = false := by
  have hall : ¬ (s.data ≠ [] ∧ s.data.all Char.isDigit) := by
    rintro ⟨_, hall⟩
    rw [List.all_eq_true] at hall
    have := hall c hc
    rw [hnd] at this
    exact absurd this (by simp)
  rw [isArrayIndex, decStrToNat?, if_neg hall]

/-- C5 amended: with a nonempty record list, the statistics report
groups records by the period key with per-group subtotal and detail
lines over exactly the records carrying that key; the groups appear in
first-seen key order for the daily and monthly periods (whose keys are
not array-index strings), while for the yearly period the object
property enumeration order puts the numeric year keys in ascending
order, a permutation of the first-seen keys. -/
theorem c5_pnl_grouping (eid : Nat) (stats : PnlStatsResponse)
    (hne : stats.records ≠ []) :
    (stats.period = "daily" →
      (∀ r ∈ stats.records, jsTruthyStr r.date = true ∧
        isArrayIndex (r.date.getD "") = false) →
      Tools.getPnlStatsText eid stats = specPnlStatsText eid stats) ∧
    (stats.period = "monthly" →
      (∀ r ∈ stats.records, jsTruthyStr r.month_name = true ∧
        r.year.isSome = true) →
      Tools.getPnlStatsText eid stats = specPnlStatsText eid stats) ∧
    (stats.period = "yearly" →
      (∀ r ∈ stats.records, jsTruthyNat r.year = true ∧
        (r.year.getD 0) < 4294967295) →
      ∃ ks : List String,
        Tools.getPnlStatsText eid stats =
          "P&L Statistics for Exchange " ++ natDec eid ++ " (" ++
            stats.period ++ "):\n\n" ++
            String.intercalate "\n\n" (ks.map (fun k => Tools.pnlGroupBlock
              (k, stats.records.filter
                (fun r => specKey stats.period r = k)))) ++
            "\n\nGlobal PnL (All Time): " ++
            jsSignedPnl (parseDec stats.global_pnl) ∧
        ks.Perm (firstSeen (stats.records.map (specKey stats.period))) ∧
        ks.Sorted (fun a b => keyNum a ≤ keyNum b)) := by
  have hlen : ¬ (stats.records.length = 0) :=
    fun hc => hne (List.length_eq_zero.mp hc)
  refine ⟨?_, ?_, ?_⟩
  · intro hper hf
    have hkeq : ∀ r ∈ stats.records,
        Tools.pnlGroupKey stats.period r = specKey stats.period r := by
      intro r hr
      rw [hper]
      simp [Tools.pnlGroupKey, specKey, (hf r hr).1]
    have hgroups : buildGroups (Tools.pnlGroupKey stats.period)
        stats.records [] = specGroups (specKey stats.period) stats.records := by
      rw [buildGroups_spec]
      exact specGroups_congr _ _ _ hkeq
    have hnoidx : ∀ kv ∈ specGroups (specKey stats.period) stats.records,
        isArrayIndex kv.1 = false := by
      intro kv hkv
      have hk : kv.1 ∈ (specGroups (specKey stats.period)
          stats.records).map Prod.fst := List.mem_map_of_mem Prod.fst hkv
      rw [specGroups_keys] at hk
      have hmem := firstSeen_subset _ _ (le_refl _) _ hk
      rcases List.mem_map.mp hmem with ⟨r, hr, hrk⟩
      rw [← hrk, hper]
      simpa [specKey] using (hf r hr).2
    simp only [Tools.getPnlStatsText, specPnlStatsText]
    rw [if_neg hlen, hgroups, jsEntries_of_no_index _ hnoidx]
  · intro hper hf
    have hkeq : ∀ r ∈ stats.records,
        Tools.pnlGroupKey stats.period r = specKey stats.period r := by
      intro r hr
      rcases Option.isSome_iff_exists.mp (hf r hr).2 with ⟨y, hy⟩
      rw [hper]
      simp [Tools.pnlGroupKey, specKey, (hf r hr).1, hy, jsNatOrUndefined]
    have hgroups : buildGroups (Tools.pnlGroupKey stats.period)
        stats.records [] = specGroups (specKey stats.period) stats.records := by
      rw [buildGroups_spec]
      exact specGroups_congr _ _ _ hkeq
    have hnoidx : ∀ kv ∈ specGroups (specKey stats.period) stats.records,
        isArrayIndex kv.1 = false := by
      intro kv hkv
      have hk : kv.1 ∈ (specGroups (specKey stats.period)
          stats.records).map Prod.fst := List.mem_map_of_mem Prod.fst hkv
      rw [specGroups_keys] at hk
      have hmem := firstSeen_subset _ _ (le_refl _) _ hk
      rcases List.mem_map.mp hmem with ⟨r, hr, hrk⟩
      have hkey : kv.1 = (r.month_name.getD "") ++ " " ++
          natDec (r.year.getD 0) := by
        rw [← hrk, hper]
        simp [specKey]
      have hsp : (' ' : Char) ∈ kv.1.data := by
        rw [hkey, String.data_append, String.data_append]
        simp
      exact isArrayIndex_false_of_nondigit _ ' ' hsp rfl
    simp only [Tools.getPnlStatsText, specPnlStatsText]
    rw [if_neg hlen, hgroups, jsEntries_of_no_index _ hnoidx]
  · intro hper hf
    have hkeq : ∀ r ∈ stats.records,
        Tools.pnlGroupKey stats.period r = specKey stats.period r := by
      intro r hr
      rw [hper]
      simp [Tools.pnlGroupKey, specKey, (hf r hr).1]
    have hgroups : buildGroups (Tools.pnlGroupKey stats.period)
        stats.records [] = specGroups (specKey stats.period) stats.records := by
      rw [buildGroups_spec]
      exact specGroups_congr _ _ _ hkeq
    have hallidx : ∀ kv ∈ specGroups (specKey stats.period) stats.records,
        isArrayIndex kv.1 = true := by
      intro kv hkv
      have hk : kv.1 ∈ (specGroups (specKey stats.period)
          stats.records).map Prod.fst := List.mem_map_of_mem Prod.fst hkv
      rw [specGroups_keys] at hk
      have hmem := firstSeen_subset _ _ (le_refl _) _ hk
      rcases List.mem_map.mp hmem with ⟨r, hr, hrk⟩
      have hkey : kv.1 = natDec (r.year.getD 0) := by
        rw [← hrk, hper]
        simp [specKey]
      rw [hkey]
      exact isArrayIndex_natDec _ (hf r hr).2
    haveI htot : IsTotal (String × List PnlRecord)
        (fun a b => keyNum a.1 ≤ keyNum b.1) :=
      ⟨fun a b => Nat.le_total _ _⟩
    haveI htrans : IsTrans (String × List PnlRecord)
        (fun a b => keyNum a.1 ≤ keyNum b.1) :=
      ⟨fun _ _ _ hab hbc => le_trans hab hbc⟩
    refine ⟨(List.insertionSort (fun a b => keyNum a.1 ≤ keyNum b.1)
      (specGroups (specKey stats.period) stats.records)).map Prod.fst,
      ?_, ?_, ?_⟩
    · simp only [Tools.getPnlStatsText]
      rw [if_neg hlen, hgroups, jsEntries_of_all_index _ hallidx,
        List.map_map]
      have hmapeq : (List.insertionSort (fun a b => keyNum a.1 ≤ keyNum b.1)
            (specGroups (specKey stats.period) stats.records)).map
            Tools.pnlGroupBlock =
          (List.insertionSort (fun a b => keyNum a.1 ≤ keyNum b.1)
            (specGroups (specKey stats.period) stats.records)).map
            ((fun k => Tools.pnlGroupBlock (k, stats.records.filter
              (fun r => specKey stats.period r = k))) ∘ Prod.fst) := by
        apply List.map_congr_left
        intro kv hkv
        have hkv2 : kv ∈ specGroups (specKey stats.period) stats.records :=
          (List.perm_insertionSort _ _).subset hkv
        have hshape := mem_specGroups hkv2
        calc Tools.pnlGroupBlock kv
            = Tools.pnlGroupBlock (kv.1, stats.records.filter
                (fun r => specKey stats.period r = kv.1)) := by rw [← hshape]
          _ = ((fun k => Tools.pnlGroupBlock (k, stats.records.filter
                (fun r => specKey stats.period r = k))) ∘ Prod.fst) kv := rfl
      rw [hmapeq]
    · have hperm : (List.insertionSort
          (fun a b => keyNum a.1 ≤ keyNum b.1)
          (specGroups (specKey stats.period) stats.records)).Perm
          (specGroups (specKey stats.period) stats.records) :=
        List.perm_insertionSort _ _
      have := hperm.map Prod.fst
      rw [specGroups_keys] at this
      exact this
    · have hsorted := List.sorted_insertionSort
        (fun a b => keyNum a.1 ≤ keyNum b.1)
        (specGroups (specKey stats.period) stats.records)
      exact (List.pairwise_map).mpr hsorted


theorem c5_pnl_grouping_cex :
    (let stats0 : PnlStatsResponse := PnlStatsResponse.mk "yearly"
      [PnlRecord.mk none (some 2025) none none "AAA" 1 "1",
       PnlRecord.mk none (some 2024) none none "BBB" 2 "2"] "3";
     (jsEntries (buildGroups (Tools.pnlGroupKey stats0.period)
        stats0.records [])).map Prod.fst = ["2024", "2025"] ∧
     firstSeen (stats0.records.map (Tools.pnlGroupKey stats0.period)) =
        ["2025", "2024"] ∧
     Tools.getPnlStatsText 1 stats0 ≠ specPnlStatsText 1 stats0) := by
  refine ⟨by decide, by decide, by decide⟩

theorem c5_pnl_grouping_witness :
    (let statsD : PnlStatsResponse := PnlStatsResponse.mk "daily"
      [PnlRecord.mk (some "2024-01-01") none none none "BTCUSDT" 2 "1.5",
       PnlRecord.mk (some "2024-01-01") none none none "ETHUSDT" 1 "-0.25"]
      "1.25";
     Tools.getPnlStatsText 1 statsD = specPnlStatsText 1 statsD) :=
  (c5_pnl_grouping 1 _ (by decide)).1 rfl (by decide)

end Kriptty
